import Mathlib

/-!
Verification of the multi-agent research workflow system
(`src/core/orchestrator.py` and the four agents under `src/agents/`).

Python dictionaries with heterogeneous values are embedded as association
lists over an inductive `Val` type.  Machine floats are embedded as exact
rationals: every arithmetic expression appearing in the source
(fixed-weight averages of small decimal constants, table lookups of the
form `base * multiplier`) is exact at every value the code computes with,
so the rational semantics agrees with the float semantics there.
Wall-clock fields (`execution_time`, timestamps) and logging are omitted:
no control flow depends on them.  The external generation capability
`generate(prompt, max_tokens) -> text` is embedded as a function into
`Except String String`, the `.error` branch standing for a raised
exception.
-/

/-- Embedding of a Python value as it flows between the agents:
strings, numbers (exact rationals in place of floats/ints), booleans,
lists, and string-keyed dictionaries (as association lists, preserving
insertion order like Python dicts). -/
inductive Val where
  | str (s : String)
  | num (q : ℚ)
  | bool (b : Bool)
  | list (l : List Val)
  | dict (d : List (String × Val))

/-- Dictionary lookup: first binding of the key, mirroring Python `d[k]`
presence semantics (keys are unique in every dict the code builds). -/
def lookupVal : List (String × Val) → String → Option Val
  | [], _ => none
  | (k, v) :: rest, key => if k = key then some v else lookupVal rest key

/-- Python `d.get(k, default)`. -/
def pyGet (d : List (String × Val)) (k : String) (dflt : Val) : Val :=
  (lookupVal d k).getD dflt

/-- Python `d.get(k1, d.get(k2, default))` — the two-key fallback pattern
used throughout the orchestrator. -/
def pyGet2 (d : List (String × Val)) (k1 k2 : String) (dflt : Val) : Val :=
  (lookupVal d k1).getD ((lookupVal d k2).getD dflt)

/-- Python `k in d`. -/
def containsKey (d : List (String × Val)) (k : String) : Bool :=
  (lookupVal d k).isSome

/-- Python truthiness of a value (`if research_findings.get("main_findings"):`).
An absent key yields `None`, which is falsy; that case is handled at call
sites via `Option`. -/
def truthy : Val → Bool
  | .str s => s ≠ ""
  | .num q => q ≠ 0
  | .bool b => b
  | .list l => !l.isEmpty
  | .dict d => !d.isEmpty

/-- Python `len` on the sized values the code ever measures (lists,
strings, dicts).  The code never reaches `len` of a number/bool on the
inputs quantified over by the claims; those are mapped to 0. -/
def pyLen : Val → Nat
  | .str s => s.length
  | .num _ => 0
  | .bool _ => 0
  | .list l => l.length
  | .dict d => d.length

/-- Numeric reading of a value (for `score` arithmetic); Python bools are
ints.  Non-numeric values never reach the arithmetic on the inputs the
claims quantify over. -/
def pyToQ : Val → ℚ
  | .num q => q
  | .bool b => if b then 1 else 0
  | _ => 0

/-- Rendering of a value inside an f-string.  Exact float formatting and
deep container rendering are abbreviated: every rendered string is opaque
prompt/message text, inspected by no control flow. -/
def pyStr : Val → String
  | .str s => s
  | .num q => toString q
  | .bool b => if b then "True" else "False"
  | .list _ => "[...]"
  | .dict _ => "{...}"

/-- Python `s.split()` (split on whitespace, dropping empty pieces), used
for word counts. -/
def pySplitWs (s : String) : List String :=
  (s.split Char.isWhitespace).filter (· ≠ "")

/-- Python `round(x, 1)` at the non-tie values the code produces (the
overall quality score); round-half-even and round-half-up agree away
from ties. -/
def roundTo1 (q : ℚ) : ℚ := ((round (q * 10) : ℤ) : ℚ) / 10

/-- AgentStatus enum of `base_agent.py`. -/
inductive AgentStatus where
  | idle
  | working
  | completed
  | error
deriving DecidableEq

/-- AgentResult dataclass of `base_agent.py`; the wall-clock
`execution_time`/`timestamp` fields are omitted (no control flow reads
them). -/
structure AgentResult where
  agent_name : String
  status : AgentStatus
  output : List (String × Val)
  metadata : List (String × Val)

/-- The error-wrapping result every agent builds in its `except` block:
`status = ERROR`, output `{"error": str(e)}`, metadata `error_type`
plus any agent-specific extras. -/
def errorResult (name msg ty : String) (extra : List (String × Val)) : AgentResult :=
  { agent_name := name
    status := .error
    output := [("error", .str msg)]
    metadata := [("error_type", .str ty)] ++ extra }

/-- The configuration values of `core/config.py` that the agents read. -/
structure Cfg where
  maxResearchSources : Nat
  minContentLength : ℚ
  qualityThreshold : ℚ
  maxTokens : Nat

/-- Defaults from `config.py` (`MAX_RESEARCH_SOURCES=3`,
`MIN_CONTENT_LENGTH=500`, `QUALITY_THRESHOLD=0.8`, `MAX_TOKENS=800`). -/
def defaultCfg : Cfg :=
  { maxResearchSources := 3
    minContentLength := 500
    qualityThreshold := 8/10
    maxTokens := 800 }

/-- The external generation capability
`generate(prompt, max_tokens) -> text`; `.error` models a raised
exception (network/timeout/quota). -/
def Gen : Type := String → Nat → Except String String

namespace ResearchAgent

/-- Python success domain of `", ".join(focus_areas)`: a string (its
characters are joined), a dict (its keys, which are strings here, are
joined), or a list of strings; joining any other truthy value raises
TypeError.  The join is evaluated at `research_agent.py:93`, before the
helper's own `try`, so the failure escapes `_generate_search_queries`
and is caught only by `process`'s outer `except` block (modelled by the
guard in `process`). -/
def joinableFocusAreas : Val → Bool
  | .str _ => true
  | .dict _ => true
  | .list l => l.all (fun v => match v with | .str _ => true | _ => false)
  | _ => false

/-- The comma-joined focus-areas text on the joinable values (opaque
prompt data). -/
def joinFocusAreas : Val → String
  | .str s => String.intercalate ", " (s.toList.map (fun c => String.mk [c]))
  | .dict d => String.intercalate ", " (d.map (fun p => p.1))
  | .list l => String.intercalate ", "
      (l.filterMap (fun v => match v with | .str s => some s | _ => none))
  | _ => ""

/-- Prompt of `_generate_search_queries` (`research_agent.py`), built on
the joinable values.  Prompt bodies are opaque data handed to the
generation capability; the instruction text is abbreviated to its head
line. -/
def queriesPrompt (topic : Val) (focusAreas : Val) : String :=
  "Generate 3-5 specific search queries for researching: " ++ pyStr topic
    ++ " " ++ (if truthy focusAreas then "with focus on: " ++ joinFocusAreas focusAreas else "")

/-- `_generate_search_queries`: ask the capability for queries (stripping
lines, keeping at most 5); on any exception fall back to three basic
queries built from the topic. -/
def generateSearchQueries (gen : Gen) (topic : Val) (focusAreas : Val) : List String :=
  match gen (queriesPrompt topic focusAreas) 200 with
  | .ok response =>
      (((response.splitOn "\n").map String.trim).filter (· ≠ "")).take 5
  | .error _ =>
      [pyStr topic ++ " overview",
       pyStr topic ++ " recent developments",
       pyStr topic ++ " industry analysis"]

/-- `_web_search`: the mock search backend returning three results per
query (academic, industry, news), each a dict with title/url/snippet/
source_type; its `try` body cannot raise. -/
def webSearch (query : String) : List Val :=
  [.dict [("title", .str ("Research on " ++ query ++ " - Academic Source")),
          ("url", .str ("https://academic-source.com/search?q=" ++ query.replace " " "+")),
          ("snippet", .str ("Comprehensive research findings on " ++ query ++ " from academic sources...")),
          ("source_type", .str "academic")],
   .dict [("title", .str (query ++ " - Industry Report")),
          ("url", .str ("https://industry-report.com/topics/" ++ query.replace " " "-")),
          ("snippet", .str ("Industry insights and analysis on " ++ query ++ " with current trends...")),
          ("source_type", .str "industry")],
   .dict [("title", .str ("News about " ++ query)),
          ("url", .str ("https://news-source.com/articles/" ++ query.replace " " "-")),
          ("snippet", .str ("Latest news and developments regarding " ++ query ++ "...")),
          ("source_type", .str "news")]]

/-- Accumulator mirroring the `processed_content` dict built by
`_process_search_results`. -/
structure Processed where
  key_points : List Val
  statistics : List Val
  expert_opinions : List Val
  recent_developments : List Val
  source_diversity : List (String × Val)

/-- Bump the per-source-type counter in `source_diversity`. -/
def bumpDiversity : List (String × Val) → String → List (String × Val)
  | [], ty => [(ty, .num 1)]
  | (k, v) :: rest, ty =>
      if k = ty then (k, .num (pyToQ v + 1)) :: rest
      else (k, v) :: bumpDiversity rest ty

/-- One loop iteration of `_process_search_results`. -/
def processOne (acc : Processed) (r : Val) : Processed :=
  let d := match r with | .dict d => d | _ => []
  let sourceType := match pyGet d "source_type" (.str "general") with
    | .str s => s
    | _ => "general"
  let snippet := pyStr (pyGet d "snippet" (.str ""))
  let acc := { acc with source_diversity := bumpDiversity acc.source_diversity sourceType }
  if sourceType = "academic" then
    { acc with key_points := acc.key_points ++ [.str ("Academic insight: " ++ snippet)] }
  else if sourceType = "industry" then
    { acc with statistics := acc.statistics ++ [.str ("Industry data: " ++ snippet)] }
  else if sourceType = "news" then
    { acc with recent_developments := acc.recent_developments ++ [.str ("Recent news: " ++ snippet)] }
  else
    { acc with expert_opinions := acc.expert_opinions ++ [.str ("General insight: " ++ snippet)] }

/-- `_process_search_results`: fold the extraction loop over the search
results and package the accumulator as the `processed_content` dict. -/
def processSearchResults (results : List Val) : List (String × Val) :=
  let acc := results.foldl processOne
    { key_points := [], statistics := [], expert_opinions := [],
      recent_developments := [], source_diversity := [] }
  [("key_points", .list acc.key_points),
   ("statistics", .list acc.statistics),
   ("expert_opinions", .list acc.expert_opinions),
   ("recent_developments", .list acc.recent_developments),
   ("source_diversity", .dict acc.source_diversity)]

/-- Prompt head of `_synthesize_findings` (body abbreviated, opaque to
the properties). -/
def synthesisPrompt (topic : Val) : String :=
  "Synthesize COMPREHENSIVE research findings for: " ++ pyStr topic

/-- `_synthesize_findings`: on success a fixed structured bundle plus the
generated synthesis text; on any exception a fixed fallback bundle.  Both
branches populate every expected sub-field with non-empty content. -/
def synthesizeFindings (gen : Gen) (cfg : Cfg) (topic : Val) : List (String × Val) :=
  match gen (synthesisPrompt topic) cfg.maxTokens with
  | .ok synthesisText =>
      [("executive_summary", .str "AI-generated synthesis of research findings"),
       ("main_findings", .list [.str "Finding 1: Key insight from research",
                                .str "Finding 2: Important trend identified",
                                .str "Finding 3: Critical development noted"]),
       ("key_trends", .list [.str "Trend 1: Emerging pattern",
                             .str "Trend 2: Market direction"]),
       ("recommendations", .list [.str "Recommendation 1: Strategic action",
                                  .str "Recommendation 2: Implementation step"]),
       ("synthesis_text", .str synthesisText)]
  | .error _ =>
      [("executive_summary", .str ("Research completed on " ++ pyStr topic)),
       ("main_findings", .list [.str "Research data collected and processed"]),
       ("key_trends", .list [.str "Analysis in progress"]),
       ("recommendations", .list [.str "Further investigation recommended"]),
       ("synthesis_text", .str "Research synthesis completed with limited AI processing")]

/-- The queries the research stage actually executes against the search
capability: the generated queries truncated by the slice
`search_queries[: config.MAX_RESEARCH_SOURCES]`. -/
def executedQueries (gen : Gen) (cfg : Cfg) (topic : Val) (focusAreas : Val) : List String :=
  (generateSearchQueries gen topic focusAreas).take cfg.maxResearchSources

/-- `ResearchAgent.validate_input`: requires only `topic`. -/
def validateInput (input : List (String × Val)) : Bool :=
  containsKey input "topic"

/-- `ResearchAgent.process`: validate, generate queries, execute the
capped slice of them against the search capability, process the results,
synthesize findings, and return a COMPLETED result.  A missing `topic`
raises `ValueError("Invalid input data")`, and a truthy non-joinable
`focus_areas` raises TypeError at the pre-try join of
`_generate_search_queries`; both are wrapped into ERROR results by the
outer `except` block.  All generation failures are swallowed inside the
helpers, so no other path produces ERROR. -/
def process (gen : Gen) (cfg : Cfg) (input : List (String × Val)) : AgentResult :=
  if validateInput input then
    let topic := pyGet input "topic" (.str "")
    let depth := pyGet input "depth" (.str "medium")
    let focusAreas := pyGet input "focus_areas" (.list [])
    if truthy focusAreas && ! joinableFocusAreas focusAreas then
      errorResult "ResearchAgent" "can only join an iterable of strings" "TypeError"
        [("ai_provider", .str "gemini")]
    else
    let searchQueries := generateSearchQueries gen topic focusAreas
    let searchResults := (executedQueries gen cfg topic focusAreas).flatMap webSearch
    let processedContent := processSearchResults searchResults
    let researchFindings := synthesizeFindings gen cfg topic
    { agent_name := "ResearchAgent"
      status := .completed
      output := [("topic", topic),
                 ("research_findings", .dict researchFindings),
                 ("sources", .list (searchResults.filterMap (fun r =>
                    match r with | .dict d => lookupVal d "url" | _ => none))),
                 ("search_queries_used", .list (searchQueries.map .str)),
                 ("content_summary", .dict processedContent)]
      metadata := [("depth", depth),
                   ("focus_areas", focusAreas),
                   ("sources_found", .num searchResults.length),
                   ("queries_executed", .num searchQueries.length),
                   ("ai_provider", .str "gemini")] }
  else
    errorResult "ResearchAgent" "Invalid input data" "ValueError"
      [("ai_provider", .str "gemini")]

end ResearchAgent

namespace AnalysisAgent

/-- `_perform_analytical_thinking`: a fixed six-category insight dict
built from the topic. -/
def performAnalyticalThinking (topic : Val) : List (String × Val) :=
  let t := pyStr topic
  [("causal_relationships", .list [.str ("Causal relationship 1 in " ++ t),
                                   .str ("Causal relationship 2 in " ++ t)]),
   ("patterns_correlations", .list [.str ("Pattern 1 observed in " ++ t),
                                    .str ("Correlation 1 identified in " ++ t)]),
   ("contradictions", .list [.str ("Contradiction 1 in " ++ t ++ " data"),
                             .str ("Contradiction 2 in " ++ t ++ " evidence")]),
   ("evidence_quality", .dict [("strengths", .list [.str ("Strong evidence for " ++ t)]),
                               ("weaknesses", .list [.str ("Weak evidence areas in " ++ t)])]),
   ("implications", .list [.str ("Implication 1 of " ++ t ++ " findings"),
                           .str ("Implication 2 of " ++ t ++ " findings")]),
   ("critical_assumptions", .list [.str ("Assumption 1 in " ++ t ++ " research"),
                                   .str ("Assumption 2 in " ++ t ++ " research")])]

/-- `_analyze_trends`: fixed trend-analysis dict built from the topic. -/
def analyzeTrends (topic : Val) : List (String × Val) :=
  let t := pyStr topic
  [("trend_classification", .dict [("emerging", .list [.str ("Emerging trend 1 in " ++ t)]),
                                   ("established", .list [.str ("Established trend 1 in " ++ t)]),
                                   ("declining", .list [.str ("Declining trend 1 in " ++ t)])]),
   ("trend_drivers", .list [.str ("Driver 1 for " ++ t ++ " trends"),
                            .str ("Driver 2 for " ++ t ++ " trends")]),
   ("sustainability_assessment", .str ("Sustainability analysis of " ++ t ++ " trends")),
   ("future_developments", .list [.str ("Future development 1 in " ++ t),
                                  .str ("Future development 2 in " ++ t)]),
   ("impact_analysis", .dict [("positive_impacts", .list [.str ("Positive impact 1 of " ++ t)]),
                              ("negative_impacts", .list [.str ("Negative impact 1 of " ++ t)]),
                              ("neutral_impacts", .list [.str ("Neutral impact 1 of " ++ t)])])]

/-- `_identify_knowledge_gaps`: echoes the findings' `knowledge_gaps`
and adds fixed gap categories built from the topic. -/
def identifyKnowledgeGaps (researchFindings : List (String × Val)) (topic : Val) : List (String × Val) :=
  let t := pyStr topic
  [("identified_gaps", pyGet researchFindings "knowledge_gaps" (.list [])),
   ("research_priorities", .list [.str ("Priority research area 1 for " ++ t),
                                  .str ("Priority research area 2 for " ++ t)]),
   ("methodological_gaps", .list [.str ("Methodological gap 1 in " ++ t ++ " research"),
                                  .str ("Methodological gap 2 in " ++ t ++ " research")]),
   ("data_gaps", .list [.str ("Data gap 1 in " ++ t), .str ("Data gap 2 in " ++ t)]),
   ("theoretical_gaps", .list [.str ("Theoretical gap 1 in " ++ t),
                               .str ("Theoretical gap 2 in " ++ t)])]

/-- `_generate_recommendations`: three fixed recommendation dicts, each
carrying action/rationale/impact/difficulty/time-horizon/priority. -/
def generateRecommendations (topic : Val) : List Val :=
  let t := pyStr topic
  [.dict [("action", .str ("Recommendation 1 for " ++ t)),
          ("rationale", .str ("Based on finding 1 about " ++ t)),
          ("expected_impact", .str "High"),
          ("implementation_difficulty", .str "Medium"),
          ("time_horizon", .str "Short term"),
          ("priority", .str "High")],
   .dict [("action", .str ("Recommendation 2 for " ++ t)),
          ("rationale", .str ("Based on finding 2 about " ++ t)),
          ("expected_impact", .str "Medium"),
          ("implementation_difficulty", .str "Low"),
          ("time_horizon", .str "Medium term"),
          ("priority", .str "Medium")],
   .dict [("action", .str ("Recommendation 3 for " ++ t)),
          ("rationale", .str ("Based on finding 3 about " ++ t)),
          ("expected_impact", .str "High"),
          ("implementation_difficulty", .str "High"),
          ("time_horizon", .str "Long term"),
          ("priority", .str "High")]]

/-- `_synthesize_analysis`: fixed synthesis dict built from the topic. -/
def synthesizeAnalysis (topic : Val) : List (String × Val) :=
  let t := pyStr topic
  [("executive_summary", .str ("Comprehensive analysis of " ++ t ++ " reveals key insights and strategic opportunities")),
   ("key_insights", .list [.str ("Key insight 1 from " ++ t ++ " analysis"),
                           .str ("Key insight 2 from " ++ t ++ " analysis"),
                           .str ("Key insight 3 from " ++ t ++ " analysis")]),
   ("strategic_implications", .list [.str ("Strategic implication 1 for " ++ t),
                                     .str ("Strategic implication 2 for " ++ t)]),
   ("risk_factors", .list [.str ("Risk factor 1 in " ++ t), .str ("Risk factor 2 in " ++ t)]),
   ("opportunities", .list [.str ("Opportunity 1 in " ++ t), .str ("Opportunity 2 in " ++ t)]),
   ("confidence_level", .str "High"),
   ("analysis_completeness", .num 85)]

/-- `_calculate_confidence_score`: base score 0.5, plus 0.2 if
`main_findings` is present and truthy, plus 0.1 each for truthy
`current_trends`, `expert_consensus`, `data_insights`, capped at 1.0.
Absent keys read as `None`, which is falsy. -/
def calculateConfidenceScore (researchFindings : List (String × Val)) : ℚ :=
  let score : ℚ := 1/2
  let score := if (lookupVal researchFindings "main_findings").elim false truthy
    then score + 2/10 else score
  let score := if (lookupVal researchFindings "current_trends").elim false truthy
    then score + 1/10 else score
  let score := if (lookupVal researchFindings "expert_consensus").elim false truthy
    then score + 1/10 else score
  let score := if (lookupVal researchFindings "data_insights").elim false truthy
    then score + 1/10 else score
  min score 1

/-- `AnalysisAgent.get_required_fields`-driven `validate_input`: requires
`research_findings` and `topic`. -/
def validateInput (input : List (String × Val)) : Bool :=
  containsKey input "research_findings" && containsKey input "topic"

/-- `AnalysisAgent.process`: validate (a missing required field raises
`ValueError("Invalid input data")`, wrapped by the `except` block into an
ERROR result), then build the fixed analysis bundle.  The agent makes no
external generation call.  A non-dict `research_findings` value raises
`AttributeError` at the first `.get`, likewise wrapped into an ERROR
result. -/
def process (input : List (String × Val)) : AgentResult :=
  if validateInput input then
    match lookupVal input "research_findings" with
    | some (.dict researchFindings) =>
        let topic := pyGet input "topic" (.str "")
        let analysisType := pyGet input "analysis_type" (.str "comprehensive")
        let analyticalInsights := performAnalyticalThinking topic
        let trendAnalysis := analyzeTrends topic
        let gapAnalysis := identifyKnowledgeGaps researchFindings topic
        let recommendations := generateRecommendations topic
        let synthesis := synthesizeAnalysis topic
        { agent_name := "AnalysisAgent"
          status := .completed
          output := [("topic", topic),
                     ("analytical_insights", .dict analyticalInsights),
                     ("trend_analysis", .dict trendAnalysis),
                     ("gap_analysis", .dict gapAnalysis),
                     ("recommendations", .list recommendations),
                     ("synthesis", .dict synthesis),
                     ("confidence_score", .num (calculateConfidenceScore researchFindings))]
          metadata := [("analysis_type", analysisType),
                       ("sources_analyzed", .num (pyLen (pyGet researchFindings "sources" (.list [])))),
                       ("insight_categories", .num analyticalInsights.length),
                       ("recommendation_count", .num recommendations.length)] }
    | _ =>
        errorResult "AnalysisAgent" "research_findings has no attribute get" "AttributeError" []
  else
    errorResult "AnalysisAgent" "Invalid input data" "ValueError" []

end AnalysisAgent

namespace ContentAgent

/-- Base target lengths per report type (`_get_target_length`). -/
def baseLengths : List (String × ℚ) :=
  [("summary", 500),
   ("comprehensive_report", 1800),
   ("analysis", 1200),
   ("presentation", 800),
   ("executive_brief", 600)]

/-- Depth multipliers (`_get_target_length`). -/
def depthMultipliers : List (String × ℚ) :=
  [("basic", 6/10), ("medium", 1), ("deep", 18/10)]

/-- Python `==` between an arbitrary value and a string literal: true
only for an equal string. -/
def valIsStr (v : Val) (s : String) : Bool :=
  match v with
  | .str t => t = s
  | _ => false

/-- Python hashability of an embedded value: lists and dicts are
unhashable, so using one as a `dict.get` key raises TypeError.  Strings,
numbers and booleans are hashable. -/
def hashableVal : Val → Bool
  | .list _ => false
  | .dict _ => false
  | _ => true

/-- Lookup in a numeric table keyed by strings, mirroring
`table.get(key, default)` on the hashable keys: a string key hits the
table, any other hashable key is simply absent.  An unhashable key
raises TypeError inside `_get_target_length`; that error path is
modelled by the `hashableVal` guard in `process`, the only caller. -/
def lookupTable (tbl : List (String × ℚ)) (key : Val) (dflt : ℚ) : ℚ :=
  match key with
  | .str s => (tbl.lookup s).getD dflt
  | _ => dflt

/-- `_get_target_length`: `int(base_lengths.get(content_type, 1500) *
depth_multipliers.get(depth, 1.0))`.  Every table product is exact and
non-negative, so `int` truncation coincides with the floor. -/
def getTargetLength (depth contentType : Val) : ℤ :=
  ⌊lookupTable baseLengths contentType 1500 * lookupTable depthMultipliers depth 1⌋

/-- `_fallback_content`: the fixed dict returned when AI generation
fails inside a report generator. -/
def fallbackContent (topic : Val) (reportType : String) : List (String × Val) :=
  [("title", .str (reportType ++ ": " ++ pyStr topic)),
   ("sections", .list [.str "Summary", .str "Analysis", .str "Recommendations"]),
   ("full_report", .str ("Professional " ++ reportType.toLower ++ " on " ++ pyStr topic
      ++ " - generated with limited AI processing.")),
   ("metadata", .dict [("generated_by", .str "Gemini AI (Fallback)"),
                       ("report_type", .str reportType),
                       ("quality_level", .str "Standard")])]

/-- Shared shape of the report generators `_generate_*`: call the
capability with the generator prompt and token budget; on success wrap
the text with the generator title/section list, on exception return the
fallback.  Prompt bodies are opaque data (abbreviated to their head
line). -/
def runGenerator (gen : Gen) (prompt : String) (maxTokens : Nat) (topic : Val)
    (title : String) (sections : List String) (reportType qualityLevel fallbackType : String) :
    List (String × Val) :=
  match gen prompt maxTokens with
  | .ok reportText =>
      [("title", .str (title ++ ": " ++ pyStr topic)),
       ("sections", .list (sections.map .str)),
       ("full_report", .str reportText),
       ("metadata", .dict [("generated_by", .str "Gemini AI"),
                           ("report_type", .str reportType),
                           ("quality_level", .str qualityLevel)])]
  | .error _ => fallbackContent topic fallbackType

/-- `_generate_basic_summary` (max_tokens 400). -/
def generateBasicSummary (gen : Gen) (topic : Val) : List (String × Val) :=
  runGenerator gen ("Create a CONCISE SUMMARY on: " ++ pyStr topic) 400 topic
    "Summary" ["Overview", "Key Points", "Recommendation"]
    "Basic Summary" "Standard" "Basic Summary"

/-- `_generate_medium_summary` (max_tokens 600). -/
def generateMediumSummary (gen : Gen) (topic : Val) : List (String × Val) :=
  runGenerator gen ("Create a COMPREHENSIVE SUMMARY on: " ++ pyStr topic) 600 topic
    "Executive Summary"
    ["Executive Overview", "Key Findings", "Strategic Implications", "Recommendations"]
    "Executive Summary" "High" "Executive Summary"

/-- `_generate_basic_report` (max_tokens 800). -/
def generateBasicReport (gen : Gen) (topic : Val) : List (String × Val) :=
  runGenerator gen ("Create a BASIC RESEARCH REPORT on: " ++ pyStr topic) 800 topic
    "Research Report" ["Introduction", "Key Findings", "Recommendations", "Conclusion"]
    "Basic Research Report" "Standard" "Basic Research Report"

/-- `_generate_medium_report` (max_tokens `config.MAX_TOKENS`). -/
def generateMediumReport (gen : Gen) (cfg : Cfg) (topic : Val) : List (String × Val) :=
  runGenerator gen ("Create an EXCEPTIONAL QUALITY professional research report on: " ++ pyStr topic)
    cfg.maxTokens topic
    "Professional Research Report"
    ["Executive Summary", "Introduction", "Key Findings", "Analysis & Insights",
     "Recommendations", "Conclusion"]
    "Professional Research Report" "A-Grade" "Professional Research Report"

/-- `_generate_deep_report` (max_tokens 1500). -/
def generateDeepReport (gen : Gen) (topic : Val) : List (String × Val) :=
  runGenerator gen ("Create an ULTRA-COMPREHENSIVE RESEARCH REPORT on: " ++ pyStr topic) 1500 topic
    "Comprehensive Research Report"
    ["Executive Summary", "Market Landscape", "Research Findings", "Analysis",
     "Recommendations", "Implementation", "Conclusion"]
    "Deep Research Report" "Expert" "Deep Research Report"

/-- `_generate_analysis_report`: word target 1200 for medium depth, 800
for basic, 2000 otherwise; max_tokens is `min(word_target, MAX_TOKENS)`. -/
def generateAnalysisReport (gen : Gen) (cfg : Cfg) (topic : Val) (depth : Val) : List (String × Val) :=
  let wordTarget : Nat := if valIsStr depth "medium" then 1200
    else if valIsStr depth "basic" then 800 else 2000
  runGenerator gen ("Create an ANALYTICAL RESEARCH REPORT on: " ++ pyStr topic)
    (min wordTarget cfg.maxTokens) topic
    "Analytical Report"
    ["Situational Analysis", "Data Analysis", "Strategic Implications", "Actionable Insights"]
    "Analytical Report" "Analytical" "Analytical Report"

/-- `_generate_report` dispatch.  The branches for `("summary", deep)`
and `executive_brief` call methods (`_generate_deep_summary`,
`_generate_executive_brief`) that do not exist on the class, raising
`AttributeError`; this is modelled as the `.error` branch, which the
caller's `except` wraps into an ERROR result. -/
def generateReport (gen : Gen) (cfg : Cfg) (topic : Val) (depth contentType : Val) :
    Except String (List (String × Val)) :=
  if valIsStr contentType "summary" && valIsStr depth "basic" then
    .ok (generateBasicSummary gen topic)
  else if valIsStr contentType "summary" && valIsStr depth "medium" then
    .ok (generateMediumSummary gen topic)
  else if valIsStr contentType "summary" && valIsStr depth "deep" then
    .error "ContentAgent object has no attribute _generate_deep_summary"
  else if valIsStr contentType "comprehensive_report" && valIsStr depth "basic" then
    .ok (generateBasicReport gen topic)
  else if valIsStr contentType "comprehensive_report" && valIsStr depth "medium" then
    .ok (generateMediumReport gen cfg topic)
  else if valIsStr contentType "comprehensive_report" && valIsStr depth "deep" then
    .ok (generateDeepReport gen topic)
  else if valIsStr contentType "analysis" then
    .ok (generateAnalysisReport gen cfg topic depth)
  else if valIsStr contentType "executive_brief" then
    .error "ContentAgent object has no attribute _generate_executive_brief"
  else
    .ok (generateMediumReport gen cfg topic)

/-- The `(depth, content_type)` combinations on which `_generate_report`
raises `AttributeError` because the dispatched method does not exist. -/
def missingMethodCombo (depth contentType : Val) : Bool :=
  if valIsStr contentType "summary" && valIsStr depth "basic" then false
  else if valIsStr contentType "summary" && valIsStr depth "medium" then false
  else if valIsStr contentType "summary" && valIsStr depth "deep" then true
  else if valIsStr contentType "comprehensive_report" && valIsStr depth "basic" then false
  else if valIsStr contentType "comprehensive_report" && valIsStr depth "medium" then false
  else if valIsStr contentType "comprehensive_report" && valIsStr depth "deep" then false
  else if valIsStr contentType "analysis" then false
  else if valIsStr contentType "executive_brief" then true
  else false

/-- String read of `report_content["full_report"]`; the generators always
store a string there. -/
def fullReportText (reportContent : List (String × Val)) : String :=
  match pyGet reportContent "full_report" (.str "") with
  | .str s => s
  | _ => ""

/-- `ContentAgent.process`: no validation call — `topic` defaults to
"Unknown Topic".  Dispatches `_generate_report`; the exceptions reaching
the outer `except` are the `AttributeError` of the two missing generator
methods (raised during dispatch) and, after a successful dispatch, the
TypeError of `_get_target_length` when `depth` or `content_type` is
unhashable (the `dict.get` key).  Otherwise the COMPLETED result carries
the report, its word count, and `target_length` metadata from
`_get_target_length`. -/
def process (gen : Gen) (cfg : Cfg) (input : List (String × Val)) : AgentResult :=
  let topic := pyGet input "topic" (.str "Unknown Topic")
  let depth := pyGet input "depth" (.str "medium")
  let contentType := pyGet input "content_type" (.str "comprehensive_report")
  match generateReport gen cfg topic depth contentType with
  | .ok reportContent =>
      if hashableVal depth && hashableVal contentType then
        { agent_name := "ContentAgent"
          status := .completed
          output := [("topic", topic),
                     ("report_content", .dict reportContent),
                     ("word_count", .num (pySplitWs (fullReportText reportContent)).length),
                     ("sections_count", .num (pyLen (pyGet reportContent "sections" (.list [])))),
                     ("research_depth", depth),
                     ("report_type", contentType)]
          metadata := [("content_type", contentType),
                       ("research_depth", depth),
                       ("format", .str "structured"),
                       ("ai_provider", .str "gemini"),
                       ("target_length", .num (getTargetLength depth contentType))] }
      else
        errorResult "ContentAgent" "unhashable type" "TypeError" [("ai_provider", .str "gemini")]
  | .error msg =>
      errorResult "ContentAgent" msg "AttributeError" [("ai_provider", .str "gemini")]

end ContentAgent

namespace QualityAgent

/-- `_assess_research_quality`: two length-derived sub-scores plus fixed
simulated sub-scores; the category overall score is the constant 85. -/
def assessResearchQuality (researchFindings : List (String × Val)) (topic : Val) :
    List (String × Val) :=
  let t := pyStr topic
  let mainFindings := pyGet researchFindings "main_findings" (.list [])
  let sources := pyGet researchFindings "sources" (.list [])
  [("completeness_score", .num (min ((pyLen mainFindings : ℚ) / 5) 1 * 100)),
   ("source_quality_score", .num (min ((pyLen sources : ℚ) / 10) 1 * 100)),
   ("depth_score", .num 85),
   ("reliability_score", .num 90),
   ("overall_research_score", .num 85),
   ("strengths", .list [.str ("Comprehensive coverage of " ++ t),
                        .str "Diverse source utilization",
                        .str "Current and relevant findings"]),
   ("weaknesses", .list [.str ("Could benefit from more academic sources on " ++ t),
                         .str "Some gaps in international perspectives"])]

/-- `_assess_analysis_quality`: one length-derived sub-score plus fixed
simulated sub-scores; the category overall score is the constant 87. -/
def assessAnalysisQuality (analysisResults : List (String × Val)) (topic : Val) :
    List (String × Val) :=
  let t := pyStr topic
  let recommendations := pyGet analysisResults "recommendations" (.list [])
  [("analytical_depth_score", .num 90),
   ("logical_coherence_score", .num 85),
   ("insight_quality_score", .num 88),
   ("recommendation_quality_score", .num (min ((pyLen recommendations : ℚ) / 5) 1 * 100)),
   ("overall_analysis_score", .num 87),
   ("strengths", .list [.str ("Strong analytical framework for " ++ t),
                        .str "Clear logical progression",
                        .str "Actionable recommendations"]),
   ("weaknesses", .list [.str ("Could explore more alternative scenarios for " ++ t),
                         .str "Some assumptions need more validation"])]

/-- `_assess_content_quality`: word-count-derived completeness plus fixed
simulated sub-scores; the category overall score is the constant 86. -/
def assessContentQuality (cfg : Cfg) (contentOutput : List (String × Val)) (topic : Val) :
    List (String × Val) :=
  let t := pyStr topic
  let metadata := match pyGet contentOutput "metadata" (.dict []) with
    | .dict d => d
    | _ => []
  let wordCount := pyToQ (pyGet metadata "word_count" (.num 0))
  [("clarity_score", .num 90),
   ("structure_score", .num 85),
   ("completeness_score", .num (min (wordCount / cfg.minContentLength) 1 * 100)),
   ("professional_score", .num 88),
   ("overall_content_score", .num 86),
   ("strengths", .list [.str ("Clear and professional presentation of " ++ t),
                        .str "Well-structured sections",
                        .str "Comprehensive coverage"]),
   ("weaknesses", .list [.str ("Could include more visual elements for " ++ t),
                         .str "Some sections could be more concise"])]

/-- `_calculate_overall_score`: weighted average
`research * 0.3 + analysis * 0.4 + content * 0.3`, rounded to one
decimal place. -/
def calculateOverallScore (researchQuality analysisQuality contentQuality : List (String × Val)) : ℚ :=
  let researchScore := pyToQ (pyGet researchQuality "overall_research_score" (.num 0))
  let analysisScore := pyToQ (pyGet analysisQuality "overall_analysis_score" (.num 0))
  let contentScore := pyToQ (pyGet contentQuality "overall_content_score" (.num 0))
  roundTo1 (researchScore * (3/10) + analysisScore * (4/10) + contentScore * (3/10))

/-- `_generate_improvement_suggestions`: one suggestion per category
whose overall score is below 90. -/
def generateImprovementSuggestions
    (researchQuality analysisQuality contentQuality : List (String × Val)) (topic : Val) :
    List Val :=
  let t := pyStr topic
  (if pyToQ (pyGet researchQuality "overall_research_score" (.num 0)) < 90 then
    [Val.dict [("category", .str "Research"),
               ("priority", .str "Medium"),
               ("suggestion", .str ("Expand research sources for " ++ t
                  ++ " to include more academic and international perspectives")),
               ("expected_impact", .str "Improved research depth and credibility")]]
   else []) ++
  (if pyToQ (pyGet analysisQuality "overall_analysis_score" (.num 0)) < 90 then
    [Val.dict [("category", .str "Analysis"),
               ("priority", .str "High"),
               ("suggestion", .str ("Develop additional scenarios and stress-test assumptions for "
                  ++ t ++ " analysis")),
               ("expected_impact", .str "More robust and comprehensive analysis")]]
   else []) ++
  (if pyToQ (pyGet contentQuality "overall_content_score" (.num 0)) < 90 then
    [Val.dict [("category", .str "Content"),
               ("priority", .str "Low"),
               ("suggestion", .str ("Add visual elements and charts to enhance " ++ t
                  ++ " presentation")),
               ("expected_impact", .str "Improved readability and engagement")]]
   else [])

/-- `_generate_quality_report`: summary dict; the `recommendation` field
reflects whether the overall score meets the configured threshold. -/
def generateQualityReport (cfg : Cfg)
    (researchQuality analysisQuality contentQuality : List (String × Val))
    (overallScore : ℚ) (topic : Val) : List (String × Val) :=
  let t := pyStr topic
  [("summary", .str ("Quality assessment of " ++ t
      ++ " analysis completed with overall score of " ++ toString overallScore ++ "%")),
   ("performance_breakdown", .dict
      [("research", pyGet researchQuality "overall_research_score" (.num 0)),
       ("analysis", pyGet analysisQuality "overall_analysis_score" (.num 0)),
       ("content", pyGet contentQuality "overall_content_score" (.num 0))]),
   ("key_strengths", .list [.str ("Strong research foundation for " ++ t),
                            .str "Comprehensive analytical approach",
                            .str "Professional content presentation"]),
   ("areas_for_improvement", .list [.str ("Research depth on " ++ t ++ " could be enhanced"),
                                    .str "Analysis assumptions need validation",
                                    .str "Content could be more visually engaging"]),
   ("recommendation", .str (if cfg.qualityThreshold ≤ overallScore then
        "Approved with minor improvements suggested"
      else "Requires improvement before approval")),
   ("next_steps", .list [.str "Implement suggested improvements",
                         .str "Conduct additional review if needed",
                         .str "Finalize for delivery"])]

/-- `QualityAgent.get_required_fields`-driven `validate_input`: requires
only `topic`. -/
def validateInput (input : List (String × Val)) : Bool :=
  containsKey input "topic"

/-- The COMPLETED `AgentResult` the success path of
`QualityAgent.process` builds (lines 44-94 of `quality_agent.py`):
assess the three categories, compute the weighted overall score, and
report `approval_status`/`meets_threshold` as
`overall_score >= config.QUALITY_THRESHOLD`. -/
def completedResult (cfg : Cfg) (topic : Val) (researchFindings analysisResults contentOutput :
    List (String × Val)) : AgentResult :=
  let researchQuality := assessResearchQuality researchFindings topic
  let analysisQuality := assessAnalysisQuality analysisResults topic
  let contentQuality := assessContentQuality cfg contentOutput topic
  let overallScore := calculateOverallScore researchQuality analysisQuality contentQuality
  let improvementSuggestions :=
    generateImprovementSuggestions researchQuality analysisQuality contentQuality topic
  let qualityReport :=
    generateQualityReport cfg researchQuality analysisQuality contentQuality overallScore topic
  { agent_name := "QualityAgent"
    status := .completed
    output := [("topic", topic),
               ("overall_quality_score", .num overallScore),
               ("research_quality", .dict researchQuality),
               ("analysis_quality", .dict analysisQuality),
               ("content_quality", .dict contentQuality),
               ("improvement_suggestions", .list improvementSuggestions),
               ("quality_report", .dict qualityReport),
               ("approval_status", .str (if cfg.qualityThreshold ≤ overallScore
                  then "approved" else "needs_improvement"))]
    metadata := [("quality_threshold", .num cfg.qualityThreshold),
                 ("assessment_categories", .num 3),
                 ("suggestions_count", .num improvementSuggestions.length),
                 ("meets_threshold", .bool (cfg.qualityThreshold ≤ overallScore))] }

/-- `QualityAgent.process`: validate (missing `topic` raises
`ValueError`, wrapped into an ERROR result); read the three assessed
bundles with `{}` defaults (a present but non-dict value raises
`AttributeError` at the first `.get`, likewise wrapped); on the success
path return `completedResult`.  The agent makes no generation call on
this path. -/
def process (cfg : Cfg) (input : List (String × Val)) : AgentResult :=
  if validateInput input then
    match pyGet input "research_findings" (.dict []),
          pyGet input "analysis_results" (.dict []),
          pyGet input "content_output" (.dict []) with
    | .dict researchFindings, .dict analysisResults, .dict contentOutput =>
        completedResult cfg (pyGet input "topic" (.str "")) researchFindings analysisResults
          contentOutput
    | _, _, _ =>
        errorResult "QualityAgent" "value has no attribute get" "AttributeError" []
  else
    errorResult "QualityAgent" "Invalid input data" "ValueError" []

end QualityAgent

namespace Orchestrator

/-- WorkflowStatus enum of `orchestrator.py`. -/
inductive WorkflowStatus where
  | initialized
  | running
  | completed
  | failed
  | paused
deriving DecidableEq

/-- The `**kwargs` options of `execute_research_workflow`; a `none` field
means the caller omitted it, so the orchestrator's `kwargs.get` default
applies. -/
structure Kwargs where
  depth : Option Val := none
  focus_areas : Option Val := none
  analysis_type : Option Val := none
  content_type : Option Val := none
  target_audience : Option Val := none
  review_criteria : Option Val := none

/-- Stage 1 input (`research_input`, orchestrator lines 98-102). -/
def researchInputOf (topic : String) (kw : Kwargs) : List (String × Val) :=
  [("topic", .str topic),
   ("depth", kw.depth.getD (.str "medium")),
   ("focus_areas", kw.focus_areas.getD (.list []))]

/-- Stage 2 input (`analysis_input`, lines 117-121): topic, the research
output's `research_findings` field, and the analysis type option. -/
def analysisInputOf (topic : String) (kw : Kwargs) (researchFindings : Val) :
    List (String × Val) :=
  [("topic", .str topic),
   ("research_findings", researchFindings),
   ("analysis_type", kw.analysis_type.getD (.str "comprehensive"))]

/-- Stage 3 input (`content_input`, lines 135-141): topic, the research
findings, the full analysis output, and the content options. -/
def contentInputOf (topic : String) (kw : Kwargs) (researchFindings : Val)
    (analysisOutput : List (String × Val)) : List (String × Val) :=
  [("topic", .str topic),
   ("research_findings", researchFindings),
   ("analysis_results", .dict analysisOutput),
   ("content_type", kw.content_type.getD (.str "comprehensive_report")),
   ("target_audience", kw.target_audience.getD (.str "general"))]

/-- Stage 4 input (`quality_input`, lines 155-159): topic, the content
output's report (under key `content`), and the review criteria — the
research and analysis outputs are not forwarded. -/
def qualityInputOf (topic : String) (kw : Kwargs) (contentOutput : List (String × Val)) :
    List (String × Val) :=
  [("topic", .str topic),
   ("content", pyGet2 contentOutput "report_content" "final_content" (.dict [])),
   ("review_criteria", kw.review_criteria.getD (.str "comprehensive"))]

/-- Read a dict-valued field (Python would raise on `.get` of a non-dict;
the orchestrator only reaches this on dict values). -/
def asDict : Val → List (String × Val)
  | .dict d => d
  | _ => []

/-- The `output.get(outerKey, {}).get(innerKey, output.get(altKey, dflt))`
pattern of `_compile_final_output`. -/
def nestedGet (outer : List (String × Val)) (outerKey innerKey altKey : String) (dflt : Val) : Val :=
  pyGet (asDict (pyGet outer outerKey (.dict []))) innerKey (pyGet outer altKey dflt)

/-- `_compile_final_output` (lines 228-270); wall-clock
`execution_time`/`generated_timestamp` entries are omitted. -/
def compileFinalOutput (topic : String) (r1 r2 r3 r4 : AgentResult) : List (String × Val) :=
  [("topic", .str topic),
   ("research_phase", .dict
      [("findings", pyGet r1.output "research_findings" (.dict [])),
       ("sources", pyGet r1.output "sources" (.list []))]),
   ("analysis_phase", .dict
      [("insights", nestedGet r2.output "analysis_results" "insights" "analytical_insights" (.list [])),
       ("trends", nestedGet r2.output "analysis_results" "key_trends" "trend_analysis" (.list [])),
       ("recommendations", nestedGet r2.output "analysis_results" "recommendations" "recommendations" (.list [])),
       ("confidence_score", nestedGet r2.output "analysis_results" "confidence_score" "confidence_score" (.num (8/10)))]),
   ("content_phase", .dict
      [("report_content", pyGet2 r3.output "report_content" "final_content" (.dict [])),
       ("metadata", pyGet r3.output "metadata"
          (.dict [("word_count", pyGet r3.output "word_count" (.num 0))]))]),
   ("quality_phase", .dict
      [("quality_score", pyGet2 r4.output "overall_score" "overall_quality_score" (.num 0)),
       ("quality_assessment", pyGet2 r4.output "quality_assessment" "quality_report" (.dict [])),
       ("quality_grade", pyGet r4.output "quality_grade" (.str "B+")),
       ("improvement_suggestions", nestedGet r4.output "quality_assessment" "improvements" "improvement_suggestions" (.list []))]),
   ("workflow_metadata", .dict
      [("total_sources_analyzed", .num (pyLen (pyGet r1.output "sources" (.list [])))),
       ("total_recommendations", .num (pyLen (nestedGet r2.output "analysis_results" "recommendations" "recommendations" (.list [])))),
       ("final_word_count", pyGet r3.output "word_count"
          (pyGet (asDict (pyGet r3.output "metadata" (.dict []))) "word_count" (.num 0))),
       ("overall_quality_score", pyGet2 r4.output "overall_score" "overall_quality_score" (.num 0))])]

/-- `_compile_partial_output` (lines 272-291): failure status, error
message, the phases recorded so far, and the outputs of the completed
ones. -/
def compilePartialOutput (agentResults : List (String × AgentResult)) (error : String) :
    List (String × Val) :=
  [("status", .str "failed"),
   ("error", .str error),
   ("completed_phases", .list (agentResults.map (fun p => .str p.1))),
   ("partial_results", .dict (agentResults.filterMap (fun p =>
      if p.2.status = .completed then
        some (p.1, Val.dict [("output", .dict p.2.output)])
      else none)))]

/-- The returned `WorkflowResult` (lines 39-50); wall-clock fields and the
caller-supplied `workflow_id` are omitted; `failed_at_step` models the
`execution_summary["failed_at_step"]` entry of the failure path. -/
structure WorkflowResult where
  status : WorkflowStatus
  topic : String
  final_output : List (String × Val)
  agent_results : List (String × AgentResult)
  failed_at_step : Option Nat

/-- The message built by each `raise Exception(f"... phase failed: ...")`. -/
def stageErrMsg (phase : String) (r : AgentResult) : String :=
  phase ++ " failed: " ++ pyStr (pyGet r.output "error" (.str "Unknown error"))

/-- The FAILED `WorkflowResult` assembled in the `except` block
(lines 205-226): partial results preserved, current step recorded. -/
def failedWorkflow (topic : String) (ars : List (String × AgentResult)) (step : Nat)
    (msg : String) : WorkflowResult :=
  { status := .failed
    topic := topic
    final_output := compilePartialOutput ars msg
    agent_results := ars
    failed_at_step := some step }

/-- `execute_research_workflow` over four worker `process` functions: the
strict 4-stage pipeline.  Each stage's result is recorded into
`agent_results` before its status is checked; a non-COMPLETED status
raises, and the `except` block returns the FAILED record with everything
recorded so far.  The `research_findings` subscript of stage 2's input
construction can raise `KeyError` (modelled by the `none` branch), after
`current_step` has advanced to 2.  The quality-threshold comparison after
stage 4 only logs a warning and does not affect the outcome. -/
def executeResearchWorkflow (wr wa wc wq : List (String × Val) → AgentResult)
    (topic : String) (kw : Kwargs) : WorkflowResult :=
  let r1 := wr (researchInputOf topic kw)
  let ar1 := [("research", r1)]
  if r1.status = .completed then
    match lookupVal r1.output "research_findings" with
    | some rf =>
        let r2 := wa (analysisInputOf topic kw rf)
        let ar2 := ar1 ++ [("analysis", r2)]
        if r2.status = .completed then
          let r3 := wc (contentInputOf topic kw rf r2.output)
          let ar3 := ar2 ++ [("content", r3)]
          if r3.status = .completed then
            let r4 := wq (qualityInputOf topic kw r3.output)
            let ar4 := ar3 ++ [("quality", r4)]
            if r4.status = .completed then
              { status := .completed
                topic := topic
                final_output := compileFinalOutput topic r1 r2 r3 r4
                agent_results := ar4
                failed_at_step := none }
            else failedWorkflow topic ar4 4 (stageErrMsg "Quality review phase" r4)
          else failedWorkflow topic ar3 3 (stageErrMsg "Content creation phase" r3)
        else failedWorkflow topic ar2 2 (stageErrMsg "Analysis phase" r2)
    | none => failedWorkflow topic ar1 2 "KeyError: research_findings"
  else failedWorkflow topic ar1 1 (stageErrMsg "Research phase" r1)

/-- The stage-1 result produced in a run. -/
def runR1 (wr : List (String × Val) → AgentResult) (topic : String) (kw : Kwargs) : AgentResult :=
  wr (researchInputOf topic kw)

/-- The stage-2 result produced in a run, when stage 2 runs at all
(stage 1 COMPLETED and its output carries `research_findings`). -/
def runR2 (wr wa : List (String × Val) → AgentResult) (topic : String) (kw : Kwargs) :
    Option AgentResult :=
  let r1 := runR1 wr topic kw
  if r1.status = .completed then
    (lookupVal r1.output "research_findings").map (fun rf => wa (analysisInputOf topic kw rf))
  else none

/-- The stage-3 result produced in a run, when stage 3 runs at all. -/
def runR3 (wr wa wc : List (String × Val) → AgentResult) (topic : String) (kw : Kwargs) :
    Option AgentResult :=
  let r1 := runR1 wr topic kw
  match runR2 wr wa topic kw with
  | some r2 =>
      if r2.status = .completed then
        (lookupVal r1.output "research_findings").map
          (fun rf => wc (contentInputOf topic kw rf r2.output))
      else none
  | none => none

/-- The stage-4 result produced in a run, when stage 4 runs at all. -/
def runR4 (wr wa wc wq : List (String × Val) → AgentResult) (topic : String) (kw : Kwargs) :
    Option AgentResult :=
  match runR3 wr wa wc topic kw with
  | some r3 =>
      if r3.status = .completed then some (wq (qualityInputOf topic kw r3.output))
      else none
  | none => none

end Orchestrator

/-- Lookup in the `agent_results` mapping. -/
def lookupResult : List (String × AgentResult) → String → Option AgentResult
  | [], _ => none
  | (k, v) :: rest, key => if k = key then some v else lookupResult rest key

namespace Orchestrator

/-- If stage 1 returns a non-COMPLETED result, the run fails at step 1
with only the research result recorded. -/
theorem exec_fail1 (wr wa wc wq : List (String × Val) → AgentResult)
    (topic : String) (kw : Kwargs)
    (h1 : ¬ (runR1 wr topic kw).status = .completed) :
    executeResearchWorkflow wr wa wc wq topic kw =
      failedWorkflow topic [("research", runR1 wr topic kw)] 1
        (stageErrMsg "Research phase" (runR1 wr topic kw)) := by
  unfold executeResearchWorkflow runR1 at *
  rw [if_neg h1]

/-- If stage 2 runs and returns a non-COMPLETED result, the run fails at
step 2 with the research and analysis results recorded. -/
theorem exec_fail2 (wr wa wc wq : List (String × Val) → AgentResult)
    (topic : String) (kw : Kwargs) (r2 : AgentResult)
    (h2 : runR2 wr wa topic kw = some r2)
    (he : ¬ r2.status = .completed) :
    executeResearchWorkflow wr wa wc wq topic kw =
      failedWorkflow topic [("research", runR1 wr topic kw), ("analysis", r2)] 2
        (stageErrMsg "Analysis phase" r2) := by
  unfold runR2 at h2
  unfold executeResearchWorkflow
  by_cases h1 : (runR1 wr topic kw).status = .completed
  · rw [if_pos h1] at h2
    cases hl : lookupVal (runR1 wr topic kw).output "research_findings" with
    | none => rw [hl] at h2; cases h2
    | some rf =>
        rw [hl] at h2
        simp only [Option.map_some'] at h2
        obtain rfl : wa (analysisInputOf topic kw rf) = r2 := Option.some.inj h2
        unfold runR1 at h1 hl ⊢
        rw [if_pos h1, hl]
        simp only [if_neg he]
        rfl
  · rw [if_neg h1] at h2; cases h2


/-- A run in which stage 2 produced a result left stage 1 COMPLETED with
its findings present, and stage 2's input is the analysis input built
from them. -/
theorem runR2_some_elim (wr wa : List (String × Val) → AgentResult)
    (topic : String) (kw : Kwargs) (r2 : AgentResult)
    (h2 : runR2 wr wa topic kw = some r2) :
    (runR1 wr topic kw).status = .completed ∧
    ∃ rf, lookupVal (runR1 wr topic kw).output "research_findings" = some rf ∧
      r2 = wa (analysisInputOf topic kw rf) := by
  unfold runR2 at h2
  by_cases h1 : (runR1 wr topic kw).status = .completed
  · rw [if_pos h1] at h2
    cases hl : lookupVal (runR1 wr topic kw).output "research_findings" with
    | none => rw [hl] at h2; cases h2
    | some rf =>
        rw [hl] at h2
        simp only [Option.map_some'] at h2
        exact ⟨h1, rf, rfl, (Option.some.inj h2).symm⟩
  · rw [if_neg h1] at h2; cases h2

/-- A run in which stage 3 produced a result left stage 2 COMPLETED, and
stage 3's input is the content input built from the earlier outputs. -/
theorem runR3_some_elim (wr wa wc : List (String × Val) → AgentResult)
    (topic : String) (kw : Kwargs) (r3 : AgentResult)
    (h3 : runR3 wr wa wc topic kw = some r3) :
    ∃ r2 rf, runR2 wr wa topic kw = some r2 ∧ r2.status = .completed ∧
      lookupVal (runR1 wr topic kw).output "research_findings" = some rf ∧
      r3 = wc (contentInputOf topic kw rf r2.output) := by
  unfold runR3 at h3
  cases h2 : runR2 wr wa topic kw with
  | none => simp only [h2] at h3; exact Option.noConfusion h3
  | some r2 =>
      simp only [h2] at h3
      by_cases hc2 : r2.status = .completed
      · rw [if_pos hc2] at h3
        cases hl : lookupVal (runR1 wr topic kw).output "research_findings" with
        | none => rw [hl] at h3; cases h3
        | some rf =>
            rw [hl] at h3
            simp only [Option.map_some'] at h3
            exact ⟨r2, rf, rfl, hc2, rfl, (Option.some.inj h3).symm⟩
      · rw [if_neg hc2] at h3; cases h3

/-- A run in which stage 4 produced a result left stage 3 COMPLETED, and
stage 4's input is the quality input built from the content output. -/
theorem runR4_some_elim (wr wa wc wq : List (String × Val) → AgentResult)
    (topic : String) (kw : Kwargs) (r4 : AgentResult)
    (h4 : runR4 wr wa wc wq topic kw = some r4) :
    ∃ r3, runR3 wr wa wc topic kw = some r3 ∧ r3.status = .completed ∧
      r4 = wq (qualityInputOf topic kw r3.output) := by
  unfold runR4 at h4
  cases h3 : runR3 wr wa wc topic kw with
  | none => simp only [h3] at h4; exact Option.noConfusion h4
  | some r3 =>
      simp only [h3] at h4
      by_cases hc3 : r3.status = .completed
      · rw [if_pos hc3] at h4
        exact ⟨r3, rfl, hc3, (Option.some.inj h4).symm⟩
      · rw [if_neg hc3] at h4; cases h4

/-- If stage 3 runs and returns a non-COMPLETED result, the run fails at
step 3 with the first three results recorded. -/
theorem exec_fail3 (wr wa wc wq : List (String × Val) → AgentResult)
    (topic : String) (kw : Kwargs) (r2 r3 : AgentResult)
    (h2 : runR2 wr wa topic kw = some r2)
    (h3 : runR3 wr wa wc topic kw = some r3)
    (he : ¬ r3.status = .completed) :
    executeResearchWorkflow wr wa wc wq topic kw =
      failedWorkflow topic
        [("research", runR1 wr topic kw), ("analysis", r2), ("content", r3)] 3
        (stageErrMsg "Content creation phase" r3) := by
  obtain ⟨r2x, rf, h2x, hc2, hl, hr3⟩ := runR3_some_elim wr wa wc topic kw r3 h3
  rw [h2x] at h2
  obtain rfl : r2 = r2x := (Option.some.inj h2).symm
  obtain ⟨h1, rf2, hl2, hr2⟩ := runR2_some_elim wr wa topic kw r2 h2x
  rw [hl] at hl2
  obtain rfl : rf = rf2 := Option.some.inj hl2
  unfold executeResearchWorkflow
  unfold runR1 at h1 hl ⊢
  rw [if_pos h1, hl]
  dsimp only
  rw [← hr2]
  simp only [if_pos hc2]
  rw [← hr3]
  simp only [if_neg he]
  rfl

/-- If stage 4 runs and returns a non-COMPLETED result, the run fails at
step 4 with all four results recorded. -/
theorem exec_fail4 (wr wa wc wq : List (String × Val) → AgentResult)
    (topic : String) (kw : Kwargs) (r2 r3 r4 : AgentResult)
    (h2 : runR2 wr wa topic kw = some r2)
    (h3 : runR3 wr wa wc topic kw = some r3)
    (h4 : runR4 wr wa wc wq topic kw = some r4)
    (he : ¬ r4.status = .completed) :
    executeResearchWorkflow wr wa wc wq topic kw =
      failedWorkflow topic
        [("research", runR1 wr topic kw), ("analysis", r2), ("content", r3), ("quality", r4)] 4
        (stageErrMsg "Quality review phase" r4) := by
  obtain ⟨r3x, h3x, hc3, hr4⟩ := runR4_some_elim wr wa wc wq topic kw r4 h4
  rw [h3x] at h3
  obtain rfl : r3 = r3x := (Option.some.inj h3).symm
  obtain ⟨r2x, rf, h2x, hc2, hl, hr3⟩ := runR3_some_elim wr wa wc topic kw r3 h3x
  rw [h2x] at h2
  obtain rfl : r2 = r2x := (Option.some.inj h2).symm
  obtain ⟨h1, rf2, hl2, hr2⟩ := runR2_some_elim wr wa topic kw r2 h2x
  rw [hl] at hl2
  obtain rfl : rf = rf2 := Option.some.inj hl2
  unfold executeResearchWorkflow
  unfold runR1 at h1 hl ⊢
  rw [if_pos h1, hl]
  dsimp only
  rw [← hr2]
  simp only [if_pos hc2]
  rw [← hr3]
  simp only [if_pos hc3]
  rw [← hr4]
  simp only [if_neg he]
  rfl

/-- If stage 4 runs and returns COMPLETED, the run completes with all
four results recorded and the final output compiled from them. -/
theorem exec_success (wr wa wc wq : List (String × Val) → AgentResult)
    (topic : String) (kw : Kwargs) (r2 r3 r4 : AgentResult)
    (h2 : runR2 wr wa topic kw = some r2)
    (h3 : runR3 wr wa wc topic kw = some r3)
    (h4 : runR4 wr wa wc wq topic kw = some r4)
    (hc4 : r4.status = .completed) :
    executeResearchWorkflow wr wa wc wq topic kw =
      { status := .completed
        topic := topic
        final_output := compileFinalOutput topic (runR1 wr topic kw) r2 r3 r4
        agent_results := [("research", runR1 wr topic kw), ("analysis", r2),
                          ("content", r3), ("quality", r4)]
        failed_at_step := none } := by
  obtain ⟨r3x, h3x, hc3, hr4⟩ := runR4_some_elim wr wa wc wq topic kw r4 h4
  rw [h3x] at h3
  obtain rfl : r3 = r3x := (Option.some.inj h3).symm
  obtain ⟨r2x, rf, h2x, hc2, hl, hr3⟩ := runR3_some_elim wr wa wc topic kw r3 h3x
  rw [h2x] at h2
  obtain rfl : r2 = r2x := (Option.some.inj h2).symm
  obtain ⟨h1, rf2, hl2, hr2⟩ := runR2_some_elim wr wa topic kw r2 h2x
  rw [hl] at hl2
  obtain rfl : rf = rf2 := Option.some.inj hl2
  unfold executeResearchWorkflow
  unfold runR1 at h1 hl ⊢
  rw [if_pos h1, hl]
  dsimp only
  rw [← hr2]
  simp only [if_pos hc2]
  rw [← hr3]
  simp only [if_pos hc3]
  rw [← hr4]
  simp only [if_pos hc4]
  rfl

end Orchestrator

/-- Concrete COMPLETED research result used by closed witness runs. -/
def stubResearchRes : AgentResult :=
  { agent_name := "ResearchAgent"
    status := .completed
    output := [("research_findings", .dict [("main_findings", .list [.str "f1"])]),
               ("sources", .list [.str "https://example.com"])]
    metadata := [] }

/-- Stub research worker returning `stubResearchRes`. -/
def stubResearchOk : List (String × Val) → AgentResult := fun _ => stubResearchRes

/-- Concrete COMPLETED analysis result used by closed witness runs. -/
def stubAnalysisRes : AgentResult :=
  { agent_name := "AnalysisAgent"
    status := .completed
    output := [("recommendations", .list []), ("confidence_score", .num (9/10))]
    metadata := [] }

/-- Stub analysis worker returning `stubAnalysisRes`. -/
def stubAnalysisOk : List (String × Val) → AgentResult := fun _ => stubAnalysisRes

/-- Stub analysis worker that always fails. -/
def stubAnalysisErr : List (String × Val) → AgentResult := fun _ =>
  errorResult "AnalysisAgent" "boom" "Exception" []

/-- Concrete COMPLETED content result used by closed witness runs. -/
def stubContentRes : AgentResult :=
  { agent_name := "ContentAgent"
    status := .completed
    output := [("report_content", .dict [("full_report", .str "Report text here"),
                                         ("sections", .list [])]),
               ("word_count", .num 3)]
    metadata := [] }

/-- Stub content worker returning `stubContentRes`. -/
def stubContentOk : List (String × Val) → AgentResult := fun _ => stubContentRes

/-- Concrete COMPLETED quality result with a low overall score. -/
def stubQualityLowRes : AgentResult :=
  { agent_name := "QualityAgent"
    status := .completed
    output := [("overall_quality_score", .num 60),
               ("approval_status", .str "needs_improvement")]
    metadata := [] }

/-- Stub quality worker returning `stubQualityLowRes`. -/
def stubQualityLow : List (String × Val) → AgentResult := fun _ => stubQualityLowRes

/-- Stub quality worker that echoes its input as its output, exposing
exactly what the engine passed to the quality stage. -/
def stubQualityEcho : List (String × Val) → AgentResult := fun input =>
  { agent_name := "QualityAgent"
    status := .completed
    output := input
    metadata := [] }

/-- The property claimed for a first ERROR at (0-indexed) stage `k`: the
run ends FAILED, the stages before `k` are COMPLETED, and
`agent_results` holds exactly stages 0..k in order, each recorded before
its status was inspected. -/
def C1At (wr wa wc wq : List (String × Val) → AgentResult) (topic : String)
    (kw : Orchestrator.Kwargs) : Nat → Prop
  | 0 =>
    (Orchestrator.runR1 wr topic kw).status = .error →
      (Orchestrator.executeResearchWorkflow wr wa wc wq topic kw).status = .failed ∧
      (Orchestrator.executeResearchWorkflow wr wa wc wq topic kw).agent_results =
        [("research", Orchestrator.runR1 wr topic kw)]
  | 1 =>
    ∀ r2, Orchestrator.runR2 wr wa topic kw = some r2 → r2.status = .error →
      (Orchestrator.executeResearchWorkflow wr wa wc wq topic kw).status = .failed ∧
      (Orchestrator.runR1 wr topic kw).status = .completed ∧
      (Orchestrator.executeResearchWorkflow wr wa wc wq topic kw).agent_results =
        [("research", Orchestrator.runR1 wr topic kw), ("analysis", r2)]
  | 2 =>
    ∀ r2 r3, Orchestrator.runR2 wr wa topic kw = some r2 →
      Orchestrator.runR3 wr wa wc topic kw = some r3 → r3.status = .error →
      (Orchestrator.executeResearchWorkflow wr wa wc wq topic kw).status = .failed ∧
      (Orchestrator.runR1 wr topic kw).status = .completed ∧ r2.status = .completed ∧
      (Orchestrator.executeResearchWorkflow wr wa wc wq topic kw).agent_results =
        [("research", Orchestrator.runR1 wr topic kw), ("analysis", r2), ("content", r3)]
  | 3 =>
    ∀ r2 r3 r4, Orchestrator.runR2 wr wa topic kw = some r2 →
      Orchestrator.runR3 wr wa wc topic kw = some r3 →
      Orchestrator.runR4 wr wa wc wq topic kw = some r4 → r4.status = .error →
      (Orchestrator.executeResearchWorkflow wr wa wc wq topic kw).status = .failed ∧
      (Orchestrator.runR1 wr topic kw).status = .completed ∧ r2.status = .completed ∧
      r3.status = .completed ∧
      (Orchestrator.executeResearchWorkflow wr wa wc wq topic kw).agent_results =
        [("research", Orchestrator.runR1 wr topic kw), ("analysis", r2), ("content", r3),
         ("quality", r4)]
  | _ => True

/-- C1: in every run whose first ERROR result arises at stage k, the
returned record is FAILED and `agent_results` holds exactly stages 1..k
(the first k-1 COMPLETED, stage k ERROR), later stages absent; each
stage's result is recorded before its status is checked, so the failing
stage's own result is preserved too. -/
theorem C1_first_error_preserves_prefix
    (wr wa wc wq : List (String × Val) → AgentResult) (topic : String)
    (kw : Orchestrator.Kwargs) (k : Nat) :
    C1At wr wa wc wq topic kw k := by
  rcases k with _ | _ | _ | _ | k
  · intro h
    have hne : ¬ (Orchestrator.runR1 wr topic kw).status = .completed := by simp [h]
    rw [Orchestrator.exec_fail1 wr wa wc wq topic kw hne]
    exact ⟨rfl, rfl⟩
  · intro r2 h2 he
    have hne : ¬ r2.status = .completed := by simp [he]
    obtain ⟨h1, -⟩ := Orchestrator.runR2_some_elim wr wa topic kw r2 h2
    rw [Orchestrator.exec_fail2 wr wa wc wq topic kw r2 h2 hne]
    exact ⟨rfl, h1, rfl⟩
  · intro r2 r3 h2 h3 he
    have hne : ¬ r3.status = .completed := by simp [he]
    obtain ⟨h1, -⟩ := Orchestrator.runR2_some_elim wr wa topic kw r2 h2
    obtain ⟨r2x, rf, h2x, hc2, -, -⟩ := Orchestrator.runR3_some_elim wr wa wc topic kw r3 h3
    rw [h2] at h2x
    obtain rfl := Option.some.inj h2x
    rw [Orchestrator.exec_fail3 wr wa wc wq topic kw r2 r3 h2 h3 hne]
    exact ⟨rfl, h1, hc2, rfl⟩
  · intro r2 r3 r4 h2 h3 h4 he
    have hne : ¬ r4.status = .completed := by simp [he]
    obtain ⟨h1, -⟩ := Orchestrator.runR2_some_elim wr wa topic kw r2 h2
    obtain ⟨r2x, rf, h2x, hc2, -, -⟩ := Orchestrator.runR3_some_elim wr wa wc topic kw r3 h3
    rw [h2] at h2x
    obtain rfl := Option.some.inj h2x
    obtain ⟨r3x, h3x, hc3, -⟩ := Orchestrator.runR4_some_elim wr wa wc wq topic kw r4 h4
    rw [h3] at h3x
    obtain rfl := Option.some.inj h3x
    rw [Orchestrator.exec_fail4 wr wa wc wq topic kw r2 r3 r4 h2 h3 h4 hne]
    exact ⟨rfl, h1, hc2, hc3, rfl⟩
  · trivial

/-- Witness for C1 at a concrete run whose analysis stage (stage 2) is
the first to return ERROR. -/
theorem C1_first_error_preserves_prefix_witness :
    (Orchestrator.executeResearchWorkflow stubResearchOk stubAnalysisErr stubContentOk
        stubQualityLow "Topic" {}).status = .failed ∧
    (Orchestrator.runR1 stubResearchOk "Topic" {}).status = .completed ∧
    (Orchestrator.executeResearchWorkflow stubResearchOk stubAnalysisErr stubContentOk
        stubQualityLow "Topic" {}).agent_results =
      [("research", Orchestrator.runR1 stubResearchOk "Topic" {}),
       ("analysis", errorResult "AnalysisAgent" "boom" "Exception" [])] :=
  C1_first_error_preserves_prefix stubResearchOk stubAnalysisErr stubContentOk stubQualityLow
    "Topic" {} 1 (errorResult "AnalysisAgent" "boom" "Exception" []) rfl rfl

/-- Counterexample for C2 at a concrete run: the quality stage's worker
(an echo stub exposing its input) receives neither the research output
(`research_findings`) nor the analysis output (`analysis_results`) —
only the `content` key — even though the research and analysis stages
completed with those outputs available. -/
theorem C2_counterexample :
    ∃ rq, lookupResult (Orchestrator.executeResearchWorkflow stubResearchOk stubAnalysisOk
        stubContentOk stubQualityEcho "Topic" {}).agent_results "quality" = some rq ∧
      containsKey rq.output "research_findings" = false ∧
      containsKey rq.output "analysis_results" = false ∧
      containsKey rq.output "content" = true ∧
      (∃ rr, lookupResult (Orchestrator.executeResearchWorkflow stubResearchOk stubAnalysisOk
          stubContentOk stubQualityEcho "Topic" {}).agent_results "research" = some rr ∧
        rr.status = .completed ∧ containsKey rr.output "research_findings" = true) ∧
      (∃ ra, lookupResult (Orchestrator.executeResearchWorkflow stubResearchOk stubAnalysisOk
          stubContentOk stubQualityEcho "Topic" {}).agent_results "analysis" = some ra ∧
        ra.status = .completed) :=
  ⟨_, rfl, rfl, rfl, rfl, ⟨_, rfl, rfl, rfl⟩, ⟨_, rfl, rfl⟩⟩

/-- C2 as the code implements it: the analysis stage receives the topic
plus the research output's `research_findings` field; the content stage
receives those plus the full analysis output; the quality stage receives
only the topic, the content output's report (under key `content`), and
the review criteria — not the research or analysis outputs.  No stage
receives any later stage's output (each input below is built solely from
earlier results). -/
theorem C2_stage_input_flow
    (wr wa wc wq : List (String × Val) → AgentResult) (topic : String)
    (kw : Orchestrator.Kwargs) (rf : Val) (r2 r3 : AgentResult)
    (hrf : lookupVal (Orchestrator.runR1 wr topic kw).output "research_findings" = some rf)
    (h2 : Orchestrator.runR2 wr wa topic kw = some r2)
    (h3 : Orchestrator.runR3 wr wa wc topic kw = some r3)
    (hc3 : r3.status = .completed) :
    Orchestrator.runR1 wr topic kw = wr
      [("topic", .str topic),
       ("depth", kw.depth.getD (.str "medium")),
       ("focus_areas", kw.focus_areas.getD (.list []))] ∧
    r2 = wa
      [("topic", .str topic),
       ("research_findings", rf),
       ("analysis_type", kw.analysis_type.getD (.str "comprehensive"))] ∧
    r3 = wc
      [("topic", .str topic),
       ("research_findings", rf),
       ("analysis_results", .dict r2.output),
       ("content_type", kw.content_type.getD (.str "comprehensive_report")),
       ("target_audience", kw.target_audience.getD (.str "general"))] ∧
    Orchestrator.runR4 wr wa wc wq topic kw = some (wq
      [("topic", .str topic),
       ("content", pyGet2 r3.output "report_content" "final_content" (.dict [])),
       ("review_criteria", kw.review_criteria.getD (.str "comprehensive"))]) ∧
    lookupResult (Orchestrator.executeResearchWorkflow wr wa wc wq topic kw).agent_results
        "quality" =
      some (wq
        [("topic", .str topic),
         ("content", pyGet2 r3.output "report_content" "final_content" (.dict [])),
         ("review_criteria", kw.review_criteria.getD (.str "comprehensive"))]) := by
  obtain ⟨h1, rf2, hl2, hr2⟩ := Orchestrator.runR2_some_elim wr wa topic kw r2 h2
  rw [hrf] at hl2
  obtain rfl := Option.some.inj hl2
  obtain ⟨r2x, rfx, h2x, hc2, hlx, hr3⟩ := Orchestrator.runR3_some_elim wr wa wc topic kw r3 h3
  rw [h2] at h2x
  obtain rfl := Option.some.inj h2x
  rw [hrf] at hlx
  obtain rfl := Option.some.inj hlx
  have h4 : Orchestrator.runR4 wr wa wc wq topic kw =
      some (wq (Orchestrator.qualityInputOf topic kw r3.output)) := by
    unfold Orchestrator.runR4
    rw [h3]
    dsimp only
    rw [if_pos hc3]
  refine ⟨rfl, hr2, hr3, h4, ?_⟩
  by_cases hc4 : (wq (Orchestrator.qualityInputOf topic kw r3.output)).status = .completed
  · rw [Orchestrator.exec_success wr wa wc wq topic kw r2 r3 _ h2 h3 h4 hc4]
    simp [lookupResult, Orchestrator.qualityInputOf]
  · rw [Orchestrator.exec_fail4 wr wa wc wq topic kw r2 r3 _ h2 h3 h4 hc4]
    simp [lookupResult, Orchestrator.failedWorkflow, Orchestrator.qualityInputOf]

/-- Witness for the amended C2 at a concrete all-completed run. -/
theorem C2_stage_input_flow_witness :
    Orchestrator.runR1 stubResearchOk "Topic" {} = stubResearchOk
      [("topic", .str "Topic"), ("depth", .str "medium"), ("focus_areas", .list [])] ∧
    stubAnalysisRes = stubAnalysisOk
      [("topic", .str "Topic"),
       ("research_findings", .dict [("main_findings", .list [.str "f1"])]),
       ("analysis_type", .str "comprehensive")] ∧
    stubContentRes = stubContentOk
      [("topic", .str "Topic"),
       ("research_findings", .dict [("main_findings", .list [.str "f1"])]),
       ("analysis_results", .dict stubAnalysisRes.output),
       ("content_type", .str "comprehensive_report"),
       ("target_audience", .str "general")] ∧
    Orchestrator.runR4 stubResearchOk stubAnalysisOk stubContentOk stubQualityEcho "Topic" {} =
      some (stubQualityEcho
        [("topic", .str "Topic"),
         ("content", pyGet2 stubContentRes.output "report_content" "final_content" (.dict [])),
         ("review_criteria", .str "comprehensive")]) ∧
    lookupResult (Orchestrator.executeResearchWorkflow stubResearchOk stubAnalysisOk stubContentOk
        stubQualityEcho "Topic" {}).agent_results "quality" =
      some (stubQualityEcho
        [("topic", .str "Topic"),
         ("content", pyGet2 stubContentRes.output "report_content" "final_content" (.dict [])),
         ("review_criteria", .str "comprehensive")]) :=
  C2_stage_input_flow stubResearchOk stubAnalysisOk stubContentOk stubQualityEcho "Topic" {}
    (.dict [("main_findings", .list [.str "f1"])]) stubAnalysisRes stubContentRes rfl rfl rfl rfl

/-- C3: a run in which all four stages return COMPLETED reaches final
status COMPLETED even when the quality stage's overall score is strictly
below the configured threshold; the low score is surfaced in the final
output's quality section (together with the quality report carrying the
not-approved recommendation) and the full quality result, with its
approval flag, is preserved in `agent_results`. -/
theorem C3_low_quality_score_still_completed
    (qualityThreshold : ℚ)
    (wr wa wc wq : List (String × Val) → AgentResult) (topic : String)
    (kw : Orchestrator.Kwargs) (r4 : AgentResult)
    (h4 : Orchestrator.runR4 wr wa wc wq topic kw = some r4)
    (hc4 : r4.status = .completed)
    (hlow : pyToQ (pyGet2 r4.output "overall_score" "overall_quality_score" (.num 0)) <
      qualityThreshold) :
    (Orchestrator.executeResearchWorkflow wr wa wc wq topic kw).status = .completed ∧
    lookupResult (Orchestrator.executeResearchWorkflow wr wa wc wq topic kw).agent_results
      "quality" = some r4 ∧
    ∃ qp, lookupVal (Orchestrator.executeResearchWorkflow wr wa wc wq topic kw).final_output
        "quality_phase" = some (.dict qp) ∧
      lookupVal qp "quality_score" =
        some (pyGet2 r4.output "overall_score" "overall_quality_score" (.num 0)) ∧
      lookupVal qp "quality_assessment" =
        some (pyGet2 r4.output "quality_assessment" "quality_report" (.dict [])) := by
  obtain ⟨r3, h3, hc3, hr4⟩ := Orchestrator.runR4_some_elim wr wa wc wq topic kw r4 h4
  obtain ⟨r2, rf, h2, hc2, hl, hr3⟩ := Orchestrator.runR3_some_elim wr wa wc topic kw r3 h3
  rw [Orchestrator.exec_success wr wa wc wq topic kw r2 r3 r4 h2 h3 h4 hc4]
  refine ⟨rfl, by simp [lookupResult], ?_⟩
  exact ⟨[("quality_score", pyGet2 r4.output "overall_score" "overall_quality_score" (.num 0)),
          ("quality_assessment", pyGet2 r4.output "quality_assessment" "quality_report" (.dict [])),
          ("quality_grade", pyGet r4.output "quality_grade" (.str "B+")),
          ("improvement_suggestions", Orchestrator.nestedGet r4.output "quality_assessment"
            "improvements" "improvement_suggestions" (.list []))],
    rfl, rfl, rfl⟩

/-- Witness for C3: concrete run with quality score 60 below a
configured threshold of 80. -/
theorem C3_low_quality_score_still_completed_witness :
    (Orchestrator.executeResearchWorkflow stubResearchOk stubAnalysisOk stubContentOk
        stubQualityLow "Topic" {}).status = .completed ∧
    lookupResult (Orchestrator.executeResearchWorkflow stubResearchOk stubAnalysisOk stubContentOk
        stubQualityLow "Topic" {}).agent_results "quality" = some stubQualityLowRes ∧
    ∃ qp, lookupVal (Orchestrator.executeResearchWorkflow stubResearchOk stubAnalysisOk
        stubContentOk stubQualityLow "Topic" {}).final_output "quality_phase" =
          some (.dict qp) ∧
      lookupVal qp "quality_score" =
        some (pyGet2 stubQualityLowRes.output "overall_score" "overall_quality_score" (.num 0)) ∧
      lookupVal qp "quality_assessment" =
        some (pyGet2 stubQualityLowRes.output "quality_assessment" "quality_report" (.dict [])) :=
  C3_low_quality_score_still_completed 80 stubResearchOk stubAnalysisOk stubContentOk
    stubQualityLow "Topic" {} stubQualityLowRes rfl rfl (by decide)

/-- Characterization of the quality worker's success path: with `topic`
present and the three assessed bundles dict-shaped (or absent), `process`
returns `completedResult`. -/
theorem quality_process_eq_completed (cfg : Cfg) (input : List (String × Val))
    (hv : QualityAgent.validateInput input = true)
    (rf ar co : List (String × Val))
    (hrf : pyGet input "research_findings" (.dict []) = .dict rf)
    (har : pyGet input "analysis_results" (.dict []) = .dict ar)
    (hco : pyGet input "content_output" (.dict []) = .dict co) :
    QualityAgent.process cfg input =
      QualityAgent.completedResult cfg (pyGet input "topic" (.str "")) rf ar co := by
  unfold QualityAgent.process
  rw [hv, hrf, har, hco]
  rfl

/-- The approval flag in a `completedResult` is "approved" exactly when
the computed overall score meets the threshold, and `meets_threshold`
records the same comparison. -/
theorem completedResult_approval (cfg : Cfg) (t : Val) (rf ar co : List (String × Val)) :
    ∃ q, lookupVal (QualityAgent.completedResult cfg t rf ar co).output
        "overall_quality_score" = some (.num q) ∧
      (lookupVal (QualityAgent.completedResult cfg t rf ar co).output "approval_status" =
          some (.str "approved") ↔ cfg.qualityThreshold ≤ q) ∧
      lookupVal (QualityAgent.completedResult cfg t rf ar co).metadata "meets_threshold" =
        some (.bool (cfg.qualityThreshold ≤ q)) := by
  refine ⟨_, rfl, ?_, rfl⟩
  show some (Val.str (if cfg.qualityThreshold ≤ QualityAgent.calculateOverallScore
      (QualityAgent.assessResearchQuality rf t) (QualityAgent.assessAnalysisQuality ar t)
      (QualityAgent.assessContentQuality cfg co t) then "approved" else "needs_improvement")) =
    some (.str "approved") ↔ _
  split_ifs with hq <;> simp [hq]

/-- C4: whenever the quality worker completes, its output's approval
flag is "approved" exactly when the overall score it reports is at least
the configured threshold, and the `meets_threshold` metadata records the
same comparison. -/
theorem C4_approved_iff_meets_threshold (cfg : Cfg) (input : List (String × Val))
    (h : (QualityAgent.process cfg input).status = .completed) :
    ∃ q, lookupVal (QualityAgent.process cfg input).output "overall_quality_score" =
        some (.num q) ∧
      (lookupVal (QualityAgent.process cfg input).output "approval_status" =
          some (.str "approved") ↔ cfg.qualityThreshold ≤ q) ∧
      lookupVal (QualityAgent.process cfg input).metadata "meets_threshold" =
        some (.bool (cfg.qualityThreshold ≤ q)) := by
  unfold QualityAgent.process at h
  cases hv : QualityAgent.validateInput input with
  | false => rw [hv] at h; simp [errorResult] at h
  | true =>
      rw [hv] at h
      simp only [eq_self_iff_true, if_true] at h
      split at h
      · rename_i rf ar co hrf har hco
        rw [quality_process_eq_completed cfg input hv rf ar co hrf har hco]
        exact completedResult_approval cfg (pyGet input "topic" (.str "")) rf ar co
      · simp [errorResult] at h

/-- Witness for C4 at a concrete input and threshold. -/
theorem C4_approved_iff_meets_threshold_witness :
    ∃ q, lookupVal (QualityAgent.process defaultCfg [("topic", .str "Topic")]).output
        "overall_quality_score" = some (.num q) ∧
      (lookupVal (QualityAgent.process defaultCfg [("topic", .str "Topic")]).output
          "approval_status" = some (.str "approved") ↔ defaultCfg.qualityThreshold ≤ q) ∧
      lookupVal (QualityAgent.process defaultCfg [("topic", .str "Topic")]).metadata
        "meets_threshold" = some (.bool (defaultCfg.qualityThreshold ≤ q)) :=
  C4_approved_iff_meets_threshold defaultCfg [("topic", .str "Topic")] rfl

/-- Counterexample for C5: an input missing the required
`research_findings` field makes the analysis worker RETURN a
`WorkerResult` with status ERROR wrapping the validation message — the
validation error is caught by the worker's own `except` block and
wrapped, not raised across the worker/engine boundary. -/
theorem C5_counterexample :
    (AnalysisAgent.process [("topic", .str "Quantum")]).status = .error ∧
    lookupVal (AnalysisAgent.process [("topic", .str "Quantum")]).output "error" =
      some (.str "Invalid input data") :=
  ⟨rfl, rfl⟩

/-- C5 as the code implements it: a missing required field produces a
returned ERROR `WorkerResult` carrying "Invalid input data" (no
exception crosses the worker/engine boundary), and the engine treats any
ERROR result from the analysis stage as a stage failure, ending the run
FAILED. -/
theorem C5_validation_error_is_wrapped (input : List (String × Val))
    (h : containsKey input "research_findings" = false ∨ containsKey input "topic" = false) :
    (AnalysisAgent.process input).status = .error ∧
    (AnalysisAgent.process input).output = [("error", .str "Invalid input data")] ∧
    ∀ (wr wc wq : List (String × Val) → AgentResult) (topic : String) (kw : Orchestrator.Kwargs)
      (r2 : AgentResult), Orchestrator.runR2 wr AnalysisAgent.process topic kw = some r2 →
      r2.status = .error →
      (Orchestrator.executeResearchWorkflow wr AnalysisAgent.process wc wq topic kw).status =
        .failed := by
  have hv : AnalysisAgent.validateInput input = false := by
    cases h with
    | inl h => simp [AnalysisAgent.validateInput, h]
    | inr h => simp [AnalysisAgent.validateInput, h]
  refine ⟨by simp [AnalysisAgent.process, hv, errorResult],
    by simp [AnalysisAgent.process, hv, errorResult], ?_⟩
  intro wr wc wq topic kw r2 h2 he
  rw [Orchestrator.exec_fail2 wr AnalysisAgent.process wc wq topic kw r2 h2 (by simp [he])]
  rfl

/-- Witness for the amended C5 at a concrete input missing
`research_findings`. -/
theorem C5_validation_error_is_wrapped_witness :
    (AnalysisAgent.process [("topic", .str "Energy")]).status = .error ∧
    (AnalysisAgent.process [("topic", .str "Energy")]).output =
      [("error", .str "Invalid input data")] ∧
    ∀ (wr wc wq : List (String × Val) → AgentResult) (topic : String) (kw : Orchestrator.Kwargs)
      (r2 : AgentResult),
      Orchestrator.runR2 wr AnalysisAgent.process topic kw = some r2 →
      r2.status = .error →
      (Orchestrator.executeResearchWorkflow wr AnalysisAgent.process wc wq topic kw).status =
        .failed :=
  C5_validation_error_is_wrapped [("topic", .str "Energy")] (Or.inl rfl)

/-- A generation capability that always raises. -/
def genFail : Gen := fun _ _ => .error "API failure"

/-- Counterexample for C6: with an always-raising generation capability
the research worker still returns status COMPLETED (its helpers swallow
the failures and fall back to canned content) with no `error` field —
not the claimed ERROR result. -/
theorem C6_counterexample :
    (ResearchAgent.process genFail defaultCfg [("topic", .str "AI")]).status = .completed ∧
    lookupVal (ResearchAgent.process genFail defaultCfg [("topic", .str "AI")]).output "error" =
      none :=
  ⟨rfl, rfl⟩

/-- The dispatch of `_generate_report` succeeds for the default
`comprehensive_report` type at every depth value. -/
theorem generateReport_comprehensive_ok (gen : Gen) (cfg : Cfg) (topic depth : Val) :
    ∃ rc, ContentAgent.generateReport gen cfg topic depth (.str "comprehensive_report") =
      .ok rc := by
  have c1 : ContentAgent.valIsStr (.str "comprehensive_report") "summary" = false := rfl
  have c2 : ContentAgent.valIsStr (.str "comprehensive_report") "comprehensive_report" = true := rfl
  have c3 : ContentAgent.valIsStr (.str "comprehensive_report") "analysis" = false := rfl
  have c4 : ContentAgent.valIsStr (.str "comprehensive_report") "executive_brief" = false := rfl
  unfold ContentAgent.generateReport
  by_cases hb : ContentAgent.valIsStr depth "basic" <;>
    by_cases hm : ContentAgent.valIsStr depth "medium" <;>
    by_cases hd : ContentAgent.valIsStr depth "deep" <;>
    simp [c1, c2, c3, c4, hb, hm, hd]

/-- C6 as the code implements it: no exception from the generation
capability escapes a worker, but generation failures are swallowed
internally with fallback content — the research worker (topic present,
focus areas falsy or joinable) and the content worker (default report
type, hashable depth) return status COMPLETED for EVERY capability,
including one whose every call raises.  ERROR arises only from
capability-independent paths: validation, the pre-try join TypeError on
truthy non-joinable focus areas, the missing-method dispatch combos, and
the unhashable-key TypeError in the target-length lookup. -/
theorem C6_no_exception_escapes_fallback_completes (gen : Gen) (cfg : Cfg)
    (input : List (String × Val))
    (htopic : containsKey input "topic" = true)
    (hfa : (truthy (pyGet input "focus_areas" (.list [])) &&
      ! ResearchAgent.joinableFocusAreas (pyGet input "focus_areas" (.list []))) = false)
    (hct : pyGet input "content_type" (.str "comprehensive_report") =
      .str "comprehensive_report")
    (hdep : ContentAgent.hashableVal (pyGet input "depth" (.str "medium")) = true) :
    (ResearchAgent.process gen cfg input).status = .completed ∧
    (ContentAgent.process gen cfg input).status = .completed := by
  constructor
  · unfold ResearchAgent.process
    rw [show ResearchAgent.validateInput input = true from htopic]
    dsimp only
    rw [hfa]
    rfl
  · obtain ⟨rc, hrc⟩ := generateReport_comprehensive_ok gen cfg
      (pyGet input "topic" (.str "Unknown Topic")) (pyGet input "depth" (.str "medium"))
    unfold ContentAgent.process
    rw [hct]
    dsimp only
    rw [hrc]
    dsimp only
    rw [hdep]
    rfl

/-- Witness for the amended C6 with the always-raising capability. -/
theorem C6_no_exception_escapes_fallback_completes_witness :
    (ResearchAgent.process genFail defaultCfg [("topic", .str "Robotics")]).status = .completed ∧
    (ContentAgent.process genFail defaultCfg [("topic", .str "Robotics")]).status = .completed :=
  C6_no_exception_escapes_fallback_completes genFail defaultCfg [("topic", .str "Robotics")]
    rfl rfl rfl rfl

/-- Counterexample for C7: two findings dicts with identical key
presence (both contain `main_findings`, nothing else) get different
confidence scores, because the code scores truthiness (non-emptiness),
not presence: an empty `main_findings` list contributes nothing. -/
theorem C7_counterexample :
    containsKey [("main_findings", Val.list [])] "main_findings" = true ∧
    containsKey [("main_findings", Val.list [Val.str "f"])] "main_findings" = true ∧
    ¬ AnalysisAgent.calculateConfidenceScore [("main_findings", Val.list [])] =
      AnalysisAgent.calculateConfidenceScore [("main_findings", Val.list [Val.str "f"])] := by
  refine ⟨rfl, rfl, ?_⟩
  have e1 : AnalysisAgent.calculateConfidenceScore [("main_findings", Val.list [])] =
      min (1/2 : ℚ) 1 := rfl
  have e2 : AnalysisAgent.calculateConfidenceScore [("main_findings", Val.list [Val.str "f"])] =
      min (1/2 + 2/10 : ℚ) 1 := rfl
  rw [e1, e2]
  norm_num [min_def]

/-- C7 as the code implements it: the Analyst's confidence score lies in
[0.5, 1] ⊆ [0, 1] for every findings dict, and it is a deterministic
function of which of the four expected sub-fields are present AND
non-empty (truthy), each truthy sub-field contributing its fixed
increment, capped at 1.0. -/
theorem C7_confidence_bounded_and_truthiness_determined (rf1 rf2 : List (String × Val))
    (h1 : (lookupVal rf1 "main_findings").elim false truthy =
          (lookupVal rf2 "main_findings").elim false truthy)
    (h2 : (lookupVal rf1 "current_trends").elim false truthy =
          (lookupVal rf2 "current_trends").elim false truthy)
    (h3 : (lookupVal rf1 "expert_consensus").elim false truthy =
          (lookupVal rf2 "expert_consensus").elim false truthy)
    (h4 : (lookupVal rf1 "data_insights").elim false truthy =
          (lookupVal rf2 "data_insights").elim false truthy) :
    AnalysisAgent.calculateConfidenceScore rf1 = AnalysisAgent.calculateConfidenceScore rf2 ∧
    0 ≤ AnalysisAgent.calculateConfidenceScore rf1 ∧
    1/2 ≤ AnalysisAgent.calculateConfidenceScore rf1 ∧
    AnalysisAgent.calculateConfidenceScore rf1 ≤ 1 := by
  refine ⟨?_, ?_, ?_, ?_⟩
  · unfold AnalysisAgent.calculateConfidenceScore
    rw [h1, h2, h3, h4]
  · simp only [AnalysisAgent.calculateConfidenceScore]
    split_ifs <;> exact le_min (by norm_num) (by norm_num)
  · simp only [AnalysisAgent.calculateConfidenceScore]
    split_ifs <;> exact le_min (by norm_num) (by norm_num)
  · simp only [AnalysisAgent.calculateConfidenceScore]
    split_ifs <;> exact min_le_right _ _

/-- Witness for the amended C7 at two concrete findings dicts with equal
truthiness profiles. -/
theorem C7_confidence_bounded_and_truthiness_determined_witness :
    AnalysisAgent.calculateConfidenceScore [("main_findings", Val.list [Val.str "a"])] =
      AnalysisAgent.calculateConfidenceScore [("main_findings", Val.str "x")] ∧
    0 ≤ AnalysisAgent.calculateConfidenceScore [("main_findings", Val.list [Val.str "a"])] ∧
    1/2 ≤ AnalysisAgent.calculateConfidenceScore [("main_findings", Val.list [Val.str "a"])] ∧
    AnalysisAgent.calculateConfidenceScore [("main_findings", Val.list [Val.str "a"])] ≤ 1 :=
  C7_confidence_bounded_and_truthiness_determined
    [("main_findings", Val.list [Val.str "a"])] [("main_findings", Val.str "x")]
    rfl rfl rfl rfl

/-- Result-shape classifier for the dispatch outcome. -/
def isOkB : Except String (List (String × Val)) → Bool
  | .ok _ => true
  | .error _ => false

/-- The dispatch of `_generate_report` raises exactly on the
missing-method combinations. -/
theorem generateReport_isOk (gen : Gen) (cfg : Cfg) (topic depth ctype : Val) :
    isOkB (ContentAgent.generateReport gen cfg topic depth ctype) =
      ! ContentAgent.missingMethodCombo depth ctype := by
  unfold ContentAgent.generateReport ContentAgent.missingMethodCombo
  split_ifs <;> rfl

/-- The error condition of the content worker: a missing-method dispatch
combination, or an unhashable `depth`/`content_type` reaching
`_get_target_length`. -/
def contentErrCond (input : List (String × Val)) : Bool :=
  ContentAgent.missingMethodCombo (pyGet input "depth" (.str "medium"))
      (pyGet input "content_type" (.str "comprehensive_report"))
    || !(ContentAgent.hashableVal (pyGet input "depth" (.str "medium"))
      && ContentAgent.hashableVal (pyGet input "content_type" (.str "comprehensive_report")))

/-- The content worker's status and `target_length` metadata depend only
on the (depth, report type) pair: ERROR with no recorded length on a
missing-method combination or an unhashable key, COMPLETED with the pure
table value `getTargetLength` otherwise. -/
theorem contentProcess_shape (gen : Gen) (cfg : Cfg) (input : List (String × Val)) :
    lookupVal (ContentAgent.process gen cfg input).metadata "target_length" =
      (if contentErrCond input then none
       else some (.num (ContentAgent.getTargetLength (pyGet input "depth" (.str "medium"))
          (pyGet input "content_type" (.str "comprehensive_report"))))) ∧
    (ContentAgent.process gen cfg input).status =
      (if contentErrCond input then .error else .completed) := by
  have hok := generateReport_isOk gen cfg (pyGet input "topic" (.str "Unknown Topic"))
    (pyGet input "depth" (.str "medium")) (pyGet input "content_type" (.str "comprehensive_report"))
  unfold ContentAgent.process contentErrCond
  dsimp only
  cases hgr : ContentAgent.generateReport gen cfg (pyGet input "topic" (.str "Unknown Topic"))
      (pyGet input "depth" (.str "medium"))
      (pyGet input "content_type" (.str "comprehensive_report")) with
  | ok rc =>
      rw [hgr] at hok
      have hmc : ContentAgent.missingMethodCombo (pyGet input "depth" (.str "medium"))
          (pyGet input "content_type" (.str "comprehensive_report")) = false := by
        revert hok
        cases ContentAgent.missingMethodCombo (pyGet input "depth" (.str "medium"))
          (pyGet input "content_type" (.str "comprehensive_report")) <;> simp [isOkB]
      rw [hmc]
      cases hh : (ContentAgent.hashableVal (pyGet input "depth" (.str "medium"))
          && ContentAgent.hashableVal (pyGet input "content_type"
            (.str "comprehensive_report"))) with
      | true => exact ⟨rfl, rfl⟩
      | false => exact ⟨rfl, rfl⟩
  | error msg =>
      rw [hgr] at hok
      have hmc : ContentAgent.missingMethodCombo (pyGet input "depth" (.str "medium"))
          (pyGet input "content_type" (.str "comprehensive_report")) = true := by
        revert hok
        cases ContentAgent.missingMethodCombo (pyGet input "depth" (.str "medium"))
          (pyGet input "content_type" (.str "comprehensive_report")) <;> simp [isOkB]
      rw [hmc]
      exact ⟨rfl, rfl⟩

/-- Projection of `contentProcess_shape`: the recorded target length. -/
theorem contentProcess_target_length (gen : Gen) (cfg : Cfg) (input : List (String × Val)) :
    lookupVal (ContentAgent.process gen cfg input).metadata "target_length" =
      (if contentErrCond input then none
       else some (.num (ContentAgent.getTargetLength (pyGet input "depth" (.str "medium"))
          (pyGet input "content_type" (.str "comprehensive_report"))))) :=
  (contentProcess_shape gen cfg input).1

/-- Projection of `contentProcess_shape`: the status. -/
theorem contentProcess_status (gen : Gen) (cfg : Cfg) (input : List (String × Val)) :
    (ContentAgent.process gen cfg input).status =
      (if contentErrCond input then .error else .completed) :=
  (contentProcess_shape gen cfg input).2

/-- C8: two content invocations with the same (depth, report type)
record the same target length, whatever the capability, configuration,
topic or upstream data; on every completed invocation that length is the
pure table value `getTargetLength` = base length of the report type
times the depth multiplier (with defaults 1500 and 1.0). -/
theorem C8_target_length_deterministic
    (gen₁ gen₂ : Gen) (cfg₁ cfg₂ : Cfg) (in₁ in₂ : List (String × Val))
    (hd : pyGet in₁ "depth" (.str "medium") = pyGet in₂ "depth" (.str "medium"))
    (hc : pyGet in₁ "content_type" (.str "comprehensive_report") =
          pyGet in₂ "content_type" (.str "comprehensive_report")) :
    lookupVal (ContentAgent.process gen₁ cfg₁ in₁).metadata "target_length" =
      lookupVal (ContentAgent.process gen₂ cfg₂ in₂).metadata "target_length" ∧
    ((ContentAgent.process gen₁ cfg₁ in₁).status = .completed →
      lookupVal (ContentAgent.process gen₁ cfg₁ in₁).metadata "target_length" =
        some (.num (ContentAgent.getTargetLength (pyGet in₁ "depth" (.str "medium"))
          (pyGet in₁ "content_type" (.str "comprehensive_report"))))) := by
  constructor
  · rw [contentProcess_target_length gen₁ cfg₁ in₁, contentProcess_target_length gen₂ cfg₂ in₂]
    simp only [contentErrCond, hd, hc]
  · intro hs
    rw [contentProcess_status gen₁ cfg₁ in₁] at hs
    by_cases hb : contentErrCond in₁ = true
    · rw [if_pos hb] at hs
      cases hs
    · rw [contentProcess_target_length gen₁ cfg₁ in₁, if_neg hb]

/-- Witness for C8 at two concrete inputs sharing the default (medium,
comprehensive_report) combination. -/
theorem C8_target_length_deterministic_witness :
    lookupVal (ContentAgent.process genFail defaultCfg [("topic", .str "T")]).metadata
        "target_length" =
      lookupVal (ContentAgent.process genFail defaultCfg
        [("topic", .str "U"), ("depth", .str "medium")]).metadata "target_length" ∧
    ((ContentAgent.process genFail defaultCfg [("topic", .str "T")]).status = .completed →
      lookupVal (ContentAgent.process genFail defaultCfg [("topic", .str "T")]).metadata
          "target_length" =
        some (.num (ContentAgent.getTargetLength
          (pyGet [("topic", Val.str "T")] "depth" (.str "medium"))
          (pyGet [("topic", Val.str "T")] "content_type" (.str "comprehensive_report"))))) :=
  C8_target_length_deterministic genFail genFail defaultCfg defaultCfg
    [("topic", .str "T")] [("topic", .str "U"), ("depth", .str "medium")] rfl rfl

/-- C9: the number of search queries the research stage executes against
the search capability is capped by the configured maximum number of
research sources, whatever list of queries the capability generates. -/
theorem C9_executed_queries_capped (gen : Gen) (cfg : Cfg) (topic focusAreas : Val) :
    (ResearchAgent.executedQueries gen cfg topic focusAreas).length ≤
      cfg.maxResearchSources := by
  unfold ResearchAgent.executedQueries
  rw [List.length_take]
  exact min_le_left _ _
